import Mathlib

/-! Appointment booking core.

A shallow embedding of `backend/controllers/appointmentsController.js`:
the slot generator `getTimeSlots`, the read-through cache, and the request
handlers `bookAppointment`, `getAppointmentsByPatient`,
`getAppointmentsByDoctor`, `rescheduleAppointment`, `cancelAppointment` and
`updateAppointmentStatus`, as state-passing functions over an explicit
server state.

Requests run one after the other. The stores are lists that every query reads
without failing; the calls that leave the controller (user lookup result,
notification scheduling, call-link token) can fail, and every exception ends in
the handler's `catch` block, which answers 500. Ids of users are strings, ids of
appointments are numbers, dates and times are the strings the requests carry.
-/

namespace Appointments

/-! ## Time of day -/

/-- The ASCII decimal digit for `d` (used with `d < 10`). -/
def digitChar (d : Nat) : Char := Char.ofNat (48 + d)

/-- Value of an ASCII decimal digit, `none` for any other character. -/
def digitVal (c : Char) : Option Nat :=
  if c.isDigit then some (c.toNat - 48) else none

/-- Zero-padded 24-hour `HH:MM` of the minute `m` of the day (`m < 1440`). -/
def hhmm (m : Nat) : String :=
  String.mk [digitChar (m / 60 / 10), digitChar (m / 60 % 10), ':',
             digitChar (m % 60 / 10), digitChar (m % 60 % 10)]

/-- The value of `new Date("1970-01-01 " + t)`, in milliseconds after local
midnight of 1970-01-01; `none` is an Invalid Date. A zero-padded 24-hour `HH:MM`
below 24:00 is that time of the day. What the engine's date parser makes of any
other string (`9:00`, `24:00`, a time with seconds, text that is no time) is not
fixed here: it is the parameter `engine`. -/
def parseLocalTime (engine : String → Option Int) (t : String) : Option Int :=
  match t.data with
  | [a, b, ':', c, d] =>
    match digitVal a, digitVal b, digitVal c, digitVal d with
    | some h1, some h0, some m1, some m0 =>
      if h1 * 10 + h0 < 24 ∧ m1 * 10 + m0 < 60 then
        some ((((h1 * 10 + h0) * 60 + (m1 * 10 + m0) : Nat) : Int) * 60000)
      else engine t
    | _, _, _, _ => engine t
  | _ => engine t

/-- The expression `d.toTimeString().slice(0, 5)` for the date `d` that lies `t`
milliseconds after local midnight of 1970-01-01: the local wall-clock time as
zero-padded `HH:MM`. The local time zone is taken to have no clock changes. -/
def toTimeString5 (t : Int) : String :=
  hhmm ((t / 60000) % 1440).toNat

/-- The `while (currentTime < end)` loop of `getTimeSlots`: push the current
wall-clock time, then advance by 30 minutes (`setMinutes(getMinutes() + 30)`).
The first argument bounds the number of iterations. -/
def slotLoop : Nat → Int → Int → List String
  | 0, _, _ => []
  | fuel + 1, currentTime, «end» =>
    if currentTime < «end» then
      toTimeString5 currentTime :: slotLoop fuel (currentTime + 30 * 60000) «end»
    else []

/-- The function `getTimeSlots(startTime, endTime)`, with the engine's date
parser as first argument. A comparison with an Invalid Date is false, so the loop
body never runs when either string fails to parse. The loop gets one iteration
per millisecond between start and end, which it never exhausts
(`slotLoop_fuel`). -/
def getTimeSlots (engine : String → Option Int) (startTime endTime : String) :
    List String :=
  match parseLocalTime engine startTime, parseLocalTime engine endTime with
  | some currentTime, some «end» =>
    slotLoop («end» - currentTime).toNat currentTime «end»
  | _, _ => []

/-! ## Data model -/

/-- Modelled from the spec: the Availability document (`models/Availability.js`
is not among the sources): a doctor's declared working window on one date. -/
structure Availability where
  doctorId : String
  date : String
  startTime : String
  endTime : String
deriving DecidableEq, Repr

/-- Modelled from the spec: the Appointment document (`models/Appointment.js` is
not among the sources), with the fields the controller reads and writes. -/
structure Appointment where
  _id : Nat
  patientId : String
  doctorId : String
  date : String
  time : String
  status : String
deriving DecidableEq, Repr

/-- The fields of a `User` document (`models/User.js`) that the controller
reads; `specialty` is a free-form field (`strict: false`). -/
structure User where
  _id : String
  name : String
  email : String
  role : String
  specialty : Option String
deriving DecidableEq, Repr

/-- The authenticated identity `req.user`. -/
structure Actor where
  id : String
  role : String
deriving DecidableEq, Repr

/-- The arguments of one `NotificationService.scheduleNotification` call. -/
structure NotificationRequest where
  recipientId : String
  subjectId : Nat
  category : String
  message : String
  channel : String
  deliverAt : Option Int
deriving DecidableEq, Repr

/-- Result of a call that may throw. -/
inductive Outcome (α : Type) where
  | returns (a : α)
  | throws
deriving DecidableEq, Repr

/-- One element of the array built by `getAppointmentsByPatient`. -/
structure PatientItem where
  appointmentId : Nat
  doctorId : String
  doctorName : Option String
  doctorSpecialty : Option String
  patientId : String
  patientName : Option String
  date : String
  time : String
  status : String
  callLink : Option String
  type : String
deriving DecidableEq, Repr

/-- The object `populate('patientId', 'name email')` puts in place of the id. -/
structure PopulatedPatient where
  _id : String
  name : String
  email : String
deriving DecidableEq, Repr

/-- One element of the array returned by `getAppointmentsByDoctor`; `patientId`
is `none` (null) when the referenced user does not exist. -/
structure DoctorItem where
  _id : Nat
  patientId : Option PopulatedPatient
  doctorId : String
  date : String
  time : String
  status : String
deriving DecidableEq, Repr

/-- A cached response payload. -/
inductive Payload where
  | patientList (items : List PatientItem)
  | doctorList (items : List DoctorItem)
deriving DecidableEq, Repr

/-- JSON body of a response. -/
inductive Body where
  | message (message : String)
  | booked (message : String) (appointmentId : Nat) (callLink : Option String)
  | rescheduled (message : String) (callLink : Option String)
  | payload (p : Payload)
deriving DecidableEq, Repr

/-- An HTTP response: status code and JSON body (`res.json` alone is 200). -/
structure Response where
  status : Nat
  body : Body
deriving DecidableEq, Repr

/-! ## Read-through cache (`new NodeCache({ stdTTL: 30 })`) -/

/-- One cache slot: the value and the timestamp `t` (ms) at which it expires
(`0` means it never expires). -/
structure CacheEntry where
  key : String
  value : Payload
  t : Nat
deriving DecidableEq, Repr

/-- The call `cache.del(key)`. -/
def cacheDel (cache : List CacheEntry) (key : String) : List CacheEntry :=
  cache.filter (fun e => e.key != key)

/-- The call `cache.get(key)` at time `now`: a miss when the key is absent or
its entry has expired (an expired entry is deleted on the way). -/
def cacheGet (cache : List CacheEntry) (key : String) (now : Nat) :
    Option Payload × List CacheEntry :=
  match cache.find? (fun e => e.key == key) with
  | none => (none, cache)
  | some e =>
    if e.t ≠ 0 ∧ e.t < now then (none, cacheDel cache key)
    else (some e.value, cache)

/-- The call `cache.set(key, value)` at time `now` with the standard TTL of 30 s. -/
def cacheSet (cache : List CacheEntry) (key : String) (value : Payload) (now : Nat) :
    List CacheEntry :=
  { key := key, value := value, t := now + 30 * 1000 } :: cacheDel cache key

/-! ## Server state and collaborators -/

/-- The stores the controller works on, the process-local cache, and the
notification requests accepted so far. `nextId` is the next fresh `_id`. -/
structure State where
  availabilities : List Availability
  appointments : List Appointment
  users : List User
  cache : List CacheEntry
  scheduled : List NotificationRequest
  nextId : Nat
deriving DecidableEq, Repr

/-- Functions the controller calls but does not define. -/
structure Services where
  /-- The builtin `Date.parse` (also behind `new Date(string)`): `none` is NaN. -/
  dateParse : String → Option Int
  /-- The date `new Date("1970-01-01 " + t)` for a string `t` that is not a
  zero-padded 24-hour `HH:MM` below 24:00, in milliseconds after local midnight of
  1970-01-01 (`none` is an Invalid Date); see `parseLocalTime`. -/
  localDate : String → Option Int
  /-- Whether the awaited `NotificationService.scheduleNotification` call resolves. -/
  scheduleNotification : NotificationRequest → Bool
  /-- The helper `generateCallLinkToken(appointment, user)`: a token, null, or an exception. -/
  generateCallLinkToken : Appointment → Actor → Outcome (Option String)

/-- Body of a booking request; a field is `none` when it is absent. -/
structure BookBody where
  patientId : Option String
  doctorId : Option String
  date : Option String
  time : Option String
deriving DecidableEq, Repr

/-- JavaScript truthiness of an optional string: absent and empty are falsy. -/
def truthy : Option String → Bool
  | none => false
  | some s => s != ""

/-- A value as a template literal renders it. -/
def render : Option String → String
  | none => "undefined"
  | some s => s

/-- The test `/^\d{2}:\d{2}$/.test(time)`. -/
def timeFormat (time : String) : Bool :=
  match time.data with
  | [a, b, ':', c, d] => a.isDigit && b.isDigit && c.isDigit && d.isDigit
  | _ => false

/-- The query `Availability.findOne({ doctorId, date })`. -/
def findAvailability (l : List Availability) (doctorId date : String) : Option Availability :=
  l.find? (fun a => a.doctorId == doctorId && a.date == date)

/-- The filter `{ doctorId, date, time, status: { $ne: 'cancelled' } }`. -/
def occupies (doctorId date time : String) (a : Appointment) : Bool :=
  a.doctorId == doctorId && a.date == date && a.time == time && a.status != "cancelled"

/-- The query `Appointment.findOne({ doctorId, date, time, status: { $ne: 'cancelled' } })`. -/
def findConflict (l : List Appointment) (doctorId date time : String) : Option Appointment :=
  l.find? (occupies doctorId date time)

/-- The query `User.findById(id, ...)`. -/
def findUserById (l : List User) (id : String) : Option User :=
  l.find? (fun u => u._id == id)

/-- The query `Appointment.findById(id)`. -/
def findById (l : List Appointment) (id : Nat) : Option Appointment :=
  l.find? (fun a => a._id == id)

/-- Write `f` to the stored document whose `_id` is `id`. -/
def updateById (id : Nat) (f : Appointment → Appointment) :
    List Appointment → List Appointment
  | [] => []
  | a :: rest => if a._id = id then f a :: rest else a :: updateById id f rest

/-! ## Handlers -/

/-- The time `reminderTime`: 24 hours before `new Date(date + "T" + time + ":00")`
(`none` when that date is invalid). -/
def reminderTime (sv : Services) (date time : String) : Option Int :=
  (sv.dateParse (date ++ "T" ++ time ++ ":00")).map (fun ms => ms - 24 * 60 * 60 * 1000)

/-- Arguments of the first `scheduleNotification` call (to the patient). -/
def patientReminder (sv : Services) (appointment : Appointment)
    (patientId doctorName date time : String) : NotificationRequest :=
  { recipientId := patientId, subjectId := appointment._id, category := "appointment",
    message := "Reminder: Your appointment with Dr. " ++ doctorName ++
      " is scheduled for " ++ date ++ " at " ++ time ++ ".",
    channel := "email", deliverAt := reminderTime sv date time }

/-- Arguments of the second `scheduleNotification` call (to the doctor). -/
def doctorReminder (sv : Services) (appointment : Appointment)
    (doctorId patientName date time : String) : NotificationRequest :=
  { recipientId := doctorId, subjectId := appointment._id, category := "appointment",
    message := "Reminder: You have an appointment with " ++ patientName ++
      " on " ++ date ++ " at " ++ time ++ ".",
    channel := "email", deliverAt := reminderTime sv date time }

/-- Lines 61-88 of `bookAppointment`: what follows `appointment.save()`. A user
that is not found makes `patient.name` or `doctor.name` throw; every exception
ends in the `catch` block, which answers 500. -/
def bookAfterSave (sv : Services) (σ : State) (user : Actor) (appointment : Appointment)
    (patientId doctorId date time : String) : Response × State :=
  match findUserById σ.users patientId, findUserById σ.users doctorId with
  | some patient, some doctor =>
    let patientName := patient.name
    let doctorName := doctor.name
    if sv.scheduleNotification
        (patientReminder sv appointment patientId doctorName date time) = false then
      (⟨500, .message "Internal Server Error"⟩, σ)
    else
      let σ1 : State :=
        { σ with
          scheduled := σ.scheduled ++
            [patientReminder sv appointment patientId doctorName date time] }
      if sv.scheduleNotification
          (doctorReminder sv appointment doctorId patientName date time) = false then
        (⟨500, .message "Internal Server Error"⟩, σ1)
      else
        let σ2 : State :=
          { σ1 with
            scheduled := σ1.scheduled ++
              [doctorReminder sv appointment doctorId patientName date time] }
        match sv.generateCallLinkToken appointment user with
        | .throws => (⟨500, .message "Internal Server Error"⟩, σ2)
        | .returns callLink =>
          (⟨201, .booked "Appointment booked successfully" appointment._id callLink⟩, σ2)
  | _, _ => (⟨500, .message "Internal Server Error"⟩, σ)

/-- The handler `exports.bookAppointment`. -/
def bookAppointment (sv : Services) (σ : State) (user : Actor) (body : BookBody) :
    Response × State :=
  let σ0 : State :=
    { σ with
      cache := cacheDel
        (cacheDel σ.cache ("appointments_patient_" ++ render body.patientId))
        ("appointments_doctor_" ++ render body.doctorId) }
  if !truthy body.patientId || !truthy body.doctorId || !truthy body.date
      || !truthy body.time then
    (⟨400, .message "Missing required fields"⟩, σ0)
  else
    let patientId := render body.patientId
    let doctorId := render body.doctorId
    let date := render body.date
    let time := render body.time
    if user.role ≠ "patient" then
      (⟨403, .message "Only patients can book appointments"⟩, σ0)
    else if user.id ≠ patientId then
      (⟨403, .message "Cannot book appointment for other patients"⟩, σ0)
    else if (sv.dateParse date).isNone then
      (⟨400, .message "Invalid date"⟩, σ0)
    else if timeFormat time = false then
      (⟨400, .message "Invalid time format"⟩, σ0)
    else
      match findAvailability σ0.availabilities doctorId date with
      | none =>
        (⟨409, .message "No availability for this doctor on the selected date"⟩, σ0)
      | some availability =>
        let availableSlots :=
          getTimeSlots sv.localDate availability.startTime availability.endTime
        if availableSlots.contains time = false then
          (⟨409, .message "Selected time is not within available slots"⟩, σ0)
        else
          match findConflict σ0.appointments doctorId date time with
          | some _ =>
            (⟨409, .message "Time slot already booked by another patient"⟩, σ0)
          | none =>
            let appointment : Appointment :=
              { _id := σ0.nextId, patientId := patientId, doctorId := doctorId,
                date := date, time := time, status := "confirmed" }
            let σ1 := { σ0 with appointments := σ0.appointments ++ [appointment],
                                nextId := σ0.nextId + 1 }
            bookAfterSave sv σ1 user appointment patientId doctorId date time

/-- The `nameMap[id]` lookup after the `users.forEach` loop: a later user with the
same id overwrites an earlier one. -/
def nameMap (users : List User) (id : String) : Option String :=
  (users.reverse.find? (fun u => u._id == id)).map (fun u => u.name)

/-- The `specialtyMap[id]` lookup: only users with role doctor are entered. -/
def specialtyMap (users : List User) (id : String) : Option String :=
  ((users.filter (fun u => u.role == "doctor")).reverse.find? (fun u => u._id == id)).bind
    (fun u => u.specialty)

/-- The `appointments.map(apt => ...)` of `getAppointmentsByPatient`; it throws as
soon as one `generateCallLinkToken` call throws. -/
def patientItems (sv : Services) (user : Actor) (users : List User) :
    List Appointment → Outcome (List PatientItem)
  | [] => .returns []
  | apt :: rest =>
    match sv.generateCallLinkToken apt user with
    | .throws => .throws
    | .returns callLink =>
      match patientItems sv user users rest with
      | .throws => .throws
      | .returns items =>
        .returns ({ appointmentId := apt._id, doctorId := apt.doctorId,
                    doctorName := nameMap users apt.doctorId,
                    doctorSpecialty := specialtyMap users apt.doctorId,
                    patientId := apt.patientId,
                    patientName := nameMap users apt.patientId,
                    date := apt.date, time := apt.time, status := apt.status,
                    callLink := callLink, type := "Video Consultation" } :: items)

/-- The handler `exports.getAppointmentsByPatient`, run at time `now`. -/
def getAppointmentsByPatient (sv : Services) (σ : State) (now : Nat) (user : Actor)
    (patientId : String) : Response × State :=
  if user.role = "patient" ∧ user.id ≠ patientId then
    (⟨403, .message "Forbidden: access denied"⟩, σ)
  else
    let cacheKey := "appointments_patient_" ++ patientId
    let σ0 := { σ with cache := (cacheGet σ.cache cacheKey now).2 }
    match (cacheGet σ.cache cacheKey now).1 with
    | some cached => (⟨200, .payload cached⟩, σ0)
    | none =>
      let appointments := σ0.appointments.filter (fun a => a.patientId == patientId)
      if appointments.length = 0 then
        (⟨404, .message "No appointments found"⟩, σ0)
      else
        let userIds := (appointments.flatMap (fun a => [a.doctorId, a.patientId])).eraseDups
        let users := σ0.users.filter (fun u => userIds.contains u._id)
        match patientItems sv user users appointments with
        | .throws => (⟨500, .message "Internal Server Error"⟩, σ0)
        | .returns result =>
          (⟨200, .payload (.patientList result)⟩,
            { σ0 with cache := cacheSet σ0.cache cacheKey (.patientList result) now })

/-- The order `.sort({ date: 1, time: 1 })`: by date, then by time, strings
compared character by character. -/
def dateTimeLe (a b : DoctorItem) : Bool :=
  decide (a.date.data < b.date.data)
    || (a.date == b.date && !decide (b.time.data < a.time.data))

/-- The step `.populate('patientId', 'name email')` on one appointment. -/
def populatePatient (users : List User) (a : Appointment) : DoctorItem :=
  { _id := a._id,
    patientId := (findUserById users a.patientId).map
      (fun u => { _id := u._id, name := u.name, email := u.email }),
    doctorId := a.doctorId, date := a.date, time := a.time, status := a.status }

/-- The handler `exports.getAppointmentsByDoctor`, run at time `now`. Documents
that agree on date and time keep their store order. -/
def getAppointmentsByDoctor (σ : State) (now : Nat) (user : Actor) (doctorId : String) :
    Response × State :=
  if user.role = "doctor" ∧ user.id ≠ doctorId then
    (⟨403, .message "Forbidden: access denied"⟩, σ)
  else
    let cacheKey := "appointments_doctor_" ++ doctorId
    let σ0 := { σ with cache := (cacheGet σ.cache cacheKey now).2 }
    match (cacheGet σ.cache cacheKey now).1 with
    | some cached => (⟨200, .payload cached⟩, σ0)
    | none =>
      let appointments :=
        (((σ0.appointments.filter (fun a => a.doctorId == doctorId)).map
          (populatePatient σ0.users)).insertionSort (fun a b => dateTimeLe a b = true))
      if appointments.length = 0 then
        (⟨404, .message "No appointments found"⟩, σ0)
      else
        (⟨200, .payload (.doctorList appointments)⟩,
          { σ0 with cache := cacheSet σ0.cache cacheKey (.doctorList appointments) now })

/-- The handler `exports.rescheduleAppointment`. A missing appointment makes
`appointment.patientId` throw, which the `catch` turns into 500. -/
def rescheduleAppointment (sv : Services) (σ : State) (user : Actor) (appointmentId : Nat)
    (newDate newTime : String) : Response × State :=
  match findById σ.appointments appointmentId with
  | none => (⟨500, .message "Internal Server Error"⟩, σ)
  | some old =>
    let appointment := { old with date := newDate, time := newTime }
    let σ1 : State :=
      { σ with
        appointments := updateById appointmentId
          (fun a => { a with date := newDate, time := newTime }) σ.appointments,
        cache := cacheDel
          (cacheDel σ.cache ("appointments_patient_" ++ appointment.patientId))
          ("appointments_doctor_" ++ appointment.doctorId) }
    match sv.generateCallLinkToken appointment user with
    | .throws => (⟨500, .message "Internal Server Error"⟩, σ1)
    | .returns callLink => (⟨200, .rescheduled "Appointment rescheduled" callLink⟩, σ1)

/-- The handler `exports.cancelAppointment`. -/
def cancelAppointment (σ : State) (appointmentId : Nat) : Response × State :=
  match findById σ.appointments appointmentId with
  | none => (⟨404, .message "Appointment not found"⟩, σ)
  | some appointment =>
    let σ1 : State :=
      { σ with
        cache := cacheDel
          (cacheDel σ.cache ("appointments_patient_" ++ appointment.patientId))
          ("appointments_doctor_" ++ appointment.doctorId) }
    (⟨200, .message "Appointment cancelled"⟩,
      { σ1 with
        appointments := updateById appointmentId
          (fun a => { a with status := "cancelled" }) σ1.appointments })

/-- The handler `exports.updateAppointmentStatus`. A missing appointment makes
`appointment.patientId` throw, which the `catch` turns into 500. -/
def updateAppointmentStatus (σ : State) (appointmentId : Nat) (status : String) :
    Response × State :=
  match findById σ.appointments appointmentId with
  | none => (⟨500, .message "Internal Server Error"⟩, σ)
  | some old =>
    let appointment := { old with status := status }
    (⟨200, .message "Status updated"⟩,
      { σ with
        appointments := updateById appointmentId
          (fun a => { a with status := status }) σ.appointments,
        cache := cacheDel
          (cacheDel σ.cache ("appointments_patient_" ++ appointment.patientId))
          ("appointments_doctor_" ++ appointment.doctorId) })

/-! ## Properties of the store and of requests -/

/-- Number of appointments with status other than cancelled at `(doctorId, date, time)`. -/
def activeAt (l : List Appointment) (doctorId date time : String) : Nat :=
  (l.filter (occupies doctorId date time)).length

/-- The uniqueness invariant: at most one appointment with status other than
cancelled per `(doctorId, date, time)`. -/
def UniqueActive (l : List Appointment) : Prop :=
  ∀ doctorId date time, activeAt l doctorId date time ≤ 1

/-- A booking request that passes the five validation checks of `bookAppointment`
(fields present, role, identity, date, time format). -/
def ValidBooking (sv : Services) (user : Actor) (body : BookBody) : Prop :=
  truthy body.patientId = true ∧ truthy body.doctorId = true ∧ truthy body.date = true
  ∧ truthy body.time = true ∧ user.role = "patient" ∧ user.id = render body.patientId
  ∧ (sv.dateParse (render body.date)).isSome = true ∧ timeFormat (render body.time) = true

instance (sv : Services) (user : Actor) (body : BookBody) :
    Decidable (ValidBooking sv user body) := by
  unfold ValidBooking
  infer_instance

/-- The state after the two `cache.del` calls that open `bookAppointment`. -/
def invalidated (σ : State) (body : BookBody) : State :=
  { σ with
    cache := cacheDel
      (cacheDel σ.cache ("appointments_patient_" ++ render body.patientId))
      ("appointments_doctor_" ++ render body.doctorId) }

/-- The appointment document `bookAppointment` creates from a request body. -/
def newAppointment (σ : State) (body : BookBody) : Appointment :=
  { _id := σ.nextId, patientId := render body.patientId, doctorId := render body.doctorId,
    date := render body.date, time := render body.time, status := "confirmed" }

/-- Whether every step after `appointment.save()` goes through: both users are
found, both scheduling calls resolve, and the token helper does not throw. -/
def lateStepsOk (sv : Services) (users : List User) (user : Actor) (a : Appointment) : Bool :=
  match findUserById users a.patientId, findUserById users a.doctorId with
  | some patient, some doctor =>
    sv.scheduleNotification (patientReminder sv a a.patientId doctor.name a.date a.time)
    && sv.scheduleNotification (doctorReminder sv a a.doctorId patient.name a.date a.time)
    && (match sv.generateCallLinkToken a user with
        | .returns _ => true
        | .throws => false)
  | _, _ => false

/-- No live or expired entry is stored under `key`. -/
def cacheAbsent (cache : List CacheEntry) (key : String) : Prop :=
  cache.find? (fun e => e.key == key) = none

/-- Both list caches of the subjects `patientId` and `doctorId` are empty, so the
next list read for either subject answers what it computes from the store: the
response is the one the same request gets when the cache holds nothing at all. -/
def ReadsFromStore (sv : Services) (σ : State) (patientId doctorId : String) : Prop :=
  cacheAbsent σ.cache ("appointments_patient_" ++ patientId)
  ∧ cacheAbsent σ.cache ("appointments_doctor_" ++ doctorId)
  ∧ (∀ now user, (getAppointmentsByPatient sv σ now user patientId).1 =
      (getAppointmentsByPatient sv { σ with cache := [] } now user patientId).1)
  ∧ (∀ now user, (getAppointmentsByDoctor σ now user doctorId).1 =
      (getAppointmentsByDoctor { σ with cache := [] } now user doctorId).1)

/-! ## Example data -/

/-- Collaborators that all respond: dates of the year 2025 parse, the only time
string read besides zero-padded `HH:MM` is `24:00`, every scheduling call
resolves, and the token names the actor and the appointment. -/
def demoServices : Services :=
  { dateParse := fun d =>
      match d.data with
      | '2' :: '0' :: '2' :: '5' :: '-' :: _ => some 1736467200000
      | _ => none,
    localDate := fun t => if t = "24:00" then some (24 * 60 * 60000) else none,
    scheduleNotification := fun _ => true,
    generateCallLinkToken := fun a u => .returns (some (u.id ++ "/" ++ a.time)) }

/-- The collaborators of `demoServices` with a notification service that rejects
every scheduling call. -/
def notifierDown : Services :=
  { demoServices with scheduleNotification := fun _ => false }

/-- The collaborators of `demoServices` with a token helper that throws. -/
def tokenThrows : Services :=
  { demoServices with generateCallLinkToken := fun _ _ => .throws }

/-- Doctor D1 is available 09:00-11:00 on 2025-01-10; nothing is booked. -/
def demoState : State :=
  { availabilities := [⟨"D1", "2025-01-10", "09:00", "11:00"⟩],
    appointments := [],
    users := [⟨"P1", "Pat", "pat@example.org", "patient", none⟩,
              ⟨"P2", "Quinn", "quinn@example.org", "patient", none⟩,
              ⟨"D1", "Dana", "dana@example.org", "doctor", some "cardiology"⟩],
    cache := [], scheduled := [], nextId := 0 }

/-- Two confirmed appointments with D1 on 2025-01-10, at 09:00 and at 09:30. -/
def demoTwoBooked : State :=
  { demoState with
    appointments := [⟨0, "P1", "D1", "2025-01-10", "09:00", "confirmed"⟩,
                     ⟨1, "P2", "D1", "2025-01-10", "09:30", "confirmed"⟩],
    nextId := 2 }

/-- The 09:00 slot after P1 cancelled and P2 booked it. -/
def demoRebooked : State :=
  { demoState with
    appointments := [⟨0, "P1", "D1", "2025-01-10", "09:00", "cancelled"⟩,
                     ⟨1, "P2", "D1", "2025-01-10", "09:00", "confirmed"⟩],
    nextId := 2 }

/-- The state `demoTwoBooked` with both list caches of P1 and D1 filled at time 0
(the cached lists are empty placeholders). -/
def demoCached : State :=
  { demoTwoBooked with
    cache := [⟨"appointments_patient_P1", .patientList [], 30000⟩,
              ⟨"appointments_doctor_D1", .doctorList [], 30000⟩,
              ⟨"appointments_patient_P2", .patientList [], 30000⟩] }

/-- The request of patient `p` for D1 on `date` at `time`. -/
def demoRequest (p date time : String) : BookBody :=
  ⟨some p, some "D1", some date, some time⟩

end Appointments

/-! # Medical records (`backend/controllers/recordsController.js`)

The records controller keeps a cache of its own, a second
`new NodeCache({ stdTTL: 30 })`, next to the Record store. -/

namespace Records

open Appointments

/-- Modelled from the spec: the Record document (`models/Record.js` is not among
the sources), with the fields the controller reads and writes. A new document
has `isDeleted` false. -/
structure Record where
  _id : String
  patientId : String
  title : Option String
  type : Option String
  notes : Option String
  fileUrl : Option String
  uploadedBy : Option String
  lastUpdatedBy : Option String
  isDeleted : Bool
  deletedBy : Option String
  deletedAt : Option Nat
deriving DecidableEq, Repr

/-- The object `populate(..., 'name')` puts in place of a user id. -/
structure PopulatedUser where
  _id : String
  name : String
deriving DecidableEq, Repr

/-- One element of the array `getRecords` returns: the record with `uploadedBy`
and `lastUpdatedBy` populated (`none` is null or not set). -/
structure RecordItem where
  record : Record
  uploadedBy : Option PopulatedUser
  lastUpdatedBy : Option PopulatedUser
deriving DecidableEq, Repr

/-- A value the records cache holds: a patient's list or one record. -/
inductive RecordPayload where
  | list (items : List RecordItem)
  | one (record : Record)
deriving DecidableEq, Repr

/-- JSON body of a response of the records controller. -/
inductive RecordBody where
  | error (error : String)
  | payload (p : RecordPayload)
  | softDeleted (message : String) (record : Record)
deriving DecidableEq, Repr

/-- An HTTP response of the records controller. -/
structure RecordResponse where
  status : Nat
  body : RecordBody
deriving DecidableEq, Repr

/-- One slot of the records cache, with its expiry timestamp `t` (ms, `0` for
none). -/
structure RecordCacheEntry where
  key : String
  value : RecordPayload
  t : Nat
deriving DecidableEq, Repr

/-- The call `cache.del(key)`. -/
def cacheDel (cache : List RecordCacheEntry) (key : String) : List RecordCacheEntry :=
  cache.filter (fun e => e.key != key)

/-- The call `cache.get(key)` at time `now`: a miss when the key is absent or
its entry has expired (an expired entry is deleted on the way). -/
def cacheGet (cache : List RecordCacheEntry) (key : String) (now : Nat) :
    Option RecordPayload × List RecordCacheEntry :=
  match cache.find? (fun e => e.key == key) with
  | none => (none, cache)
  | some e =>
    if e.t ≠ 0 ∧ e.t < now then (none, cacheDel cache key)
    else (some e.value, cache)

/-- The call `cache.set(key, value)` at time `now` with the standard TTL of 30 s. -/
def cacheSet (cache : List RecordCacheEntry) (key : String) (value : RecordPayload)
    (now : Nat) : List RecordCacheEntry :=
  { key := key, value := value, t := now + 30 * 1000 } :: cacheDel cache key

/-- The Record store, the users that `populate` looks up, and the cache. -/
structure RecordState where
  records : List Record
  users : List User
  cache : List RecordCacheEntry
deriving DecidableEq, Repr

/-- The fields `title`, `type`, `notes` of the body of a create request. -/
structure CreateBody where
  title : Option String
  type : Option String
  notes : Option String
deriving DecidableEq, Repr

/-- The fields of the body of an update request that are fields of a Record; a
field is `none` when the body does not carry it. -/
structure RecordUpdate where
  patientId : Option String
  title : Option String
  type : Option String
  notes : Option String
  fileUrl : Option String
  isDeleted : Option Bool
deriving DecidableEq, Repr

/-- The query `Record.findById(id)`. -/
def findRecordById (l : List Record) (id : String) : Option Record :=
  l.find? (fun r => r._id == id)

/-- Write `f` to the stored document whose `_id` is `id`. -/
def updateRecordById (id : String) (f : Record → Record) : List Record → List Record
  | [] => []
  | r :: rest => if r._id = id then f r :: rest else r :: updateRecordById id f rest

/-- The step `.populate('uploadedBy lastUpdatedBy', 'name')` on one record. -/
def populateRecord (users : List User) (r : Record) : RecordItem :=
  { record := r,
    uploadedBy := r.uploadedBy.bind (fun id =>
      (findUserById users id).map (fun u => { _id := u._id, name := u.name })),
    lastUpdatedBy := r.lastUpdatedBy.bind (fun id =>
      (findUserById users id).map (fun u => { _id := u._id, name := u.name })) }

/-- The query `Record.find({ patientId, isDeleted: false })` of `getRecords`,
populated. -/
def listRecords (σ : RecordState) (patientId : String) : List RecordItem :=
  (σ.records.filter (fun r => r.patientId == patientId && r.isDeleted == false)).map
    (populateRecord σ.users)

/-- The handler `exports.getRecords`, run at time `now`. -/
def getRecords (σ : RecordState) (now : Nat) (patientId : String) :
    RecordResponse × RecordState :=
  let cacheKey := "records_patient_" ++ patientId
  let σ0 : RecordState := { σ with cache := (cacheGet σ.cache cacheKey now).2 }
  match (cacheGet σ.cache cacheKey now).1 with
  | some cached => (⟨200, .payload cached⟩, σ0)
  | none =>
    let records := listRecords σ0 patientId
    (⟨200, .payload (.list records)⟩,
      { σ0 with cache := cacheSet σ0.cache cacheKey (.list records) now })

/-- The handler `exports.getRecord`, run at time `now`. -/
def getRecord (σ : RecordState) (now : Nat) (recordId : String) :
    RecordResponse × RecordState :=
  let cacheKey := "record_" ++ recordId
  let σ0 : RecordState := { σ with cache := (cacheGet σ.cache cacheKey now).2 }
  match (cacheGet σ.cache cacheKey now).1 with
  | some cached => (⟨200, .payload cached⟩, σ0)
  | none =>
    match findRecordById σ0.records recordId with
    | none => (⟨404, .error "Record not found"⟩, σ0)
    | some record =>
      if record.isDeleted = true then (⟨404, .error "Record not found"⟩, σ0)
      else
        (⟨200, .payload (.one record)⟩,
          { σ0 with cache := cacheSet σ0.cache cacheKey (.one record) now })

/-- The handler `exports.createRecord`; `newId` is the `_id` the new document
gets and `filePath` is `req.file.path` when a file came with the request. -/
def createRecord (σ : RecordState) (user : Actor) (patientId : String) (body : CreateBody)
    (filePath : Option String) (newId : String) : RecordResponse × RecordState :=
  let newRec : Record :=
    { _id := newId, patientId := patientId, title := body.title, type := body.type,
      notes := body.notes, fileUrl := filePath, uploadedBy := some user.id,
      lastUpdatedBy := none, isDeleted := false, deletedBy := none, deletedAt := none }
  (⟨201, .payload (.one newRec)⟩,
    { σ with
      records := σ.records ++ [newRec],
      cache := cacheDel σ.cache ("records_patient_" ++ patientId) })

/-- The object `{ ...req.body, lastUpdatedBy: req.user._id }` written to a record. -/
def applyUpdates (updates : RecordUpdate) (userId : String) (r : Record) : Record :=
  { r with
    patientId := updates.patientId.getD r.patientId,
    title := match updates.title with
      | some v => some v
      | none => r.title,
    type := match updates.type with
      | some v => some v
      | none => r.type,
    notes := match updates.notes with
      | some v => some v
      | none => r.notes,
    fileUrl := match updates.fileUrl with
      | some v => some v
      | none => r.fileUrl,
    isDeleted := updates.isDeleted.getD r.isDeleted,
    lastUpdatedBy := some userId }

/-- The handler `exports.updateRecord`, run at time `now`. -/
def updateRecord (σ : RecordState) (user : Actor) (now : Nat) (recordId : String)
    (updates : RecordUpdate) : RecordResponse × RecordState :=
  match findRecordById σ.records recordId with
  | none => (⟨404, .error "Record not found"⟩, σ)
  | some old =>
    let updated := applyUpdates updates user.id old
    (⟨200, .payload (.one updated)⟩,
      { σ with
        records := updateRecordById recordId (applyUpdates updates user.id) σ.records,
        cache := cacheDel (cacheSet σ.cache ("record_" ++ recordId) (.one updated) now)
          ("records_patient_" ++ updated.patientId) })

/-- The handler `exports.deleteRecord`, run at time `now` (`Date.now()`). -/
def deleteRecord (σ : RecordState) (user : Actor) (now : Nat) (recordId : String) :
    RecordResponse × RecordState :=
  match findRecordById σ.records recordId with
  | none => (⟨404, .error "Record not found"⟩, σ)
  | some old =>
    let deleted : Record :=
      { old with isDeleted := true, deletedBy := some user.id, deletedAt := some now }
    (⟨200, .softDeleted "Record soft-deleted" deleted⟩,
      { σ with
        records := updateRecordById recordId
          (fun r => { r with isDeleted := true, deletedBy := some user.id,
                             deletedAt := some now }) σ.records,
        cache := cacheDel (cacheDel σ.cache ("record_" ++ recordId))
          ("records_patient_" ++ deleted.patientId) })

/-! ## Example data -/

/-- Patient P1 has one record, R1, uploaded by doctor D1; nothing is cached. -/
def demoRecords : RecordState :=
  { records := [{ _id := "R1", patientId := "P1", title := some "Blood test",
                  type := some "lab", notes := none, fileUrl := none,
                  uploadedBy := some "D1", lastUpdatedBy := none, isDeleted := false,
                  deletedBy := none, deletedAt := none }],
    users := demoState.users,
    cache := [] }

/-- An update that only renames a record. -/
def renameTo (title : String) : RecordUpdate :=
  { patientId := none, title := some title, type := none, notes := none, fileUrl := none,
    isDeleted := none }

/-- An update that moves a record to another patient. -/
def moveTo (patientId : String) : RecordUpdate :=
  { patientId := some patientId, title := none, type := none, notes := none,
    fileUrl := none, isDeleted := none }

end Records

namespace Appointments

/-! ## Slot generator: lemmas -/

theorem digitVal_digitChar (d : Nat) (h : d < 10) : digitVal (digitChar d) = some d := by
  interval_cases d <;> rfl

theorem parseLocalTime_hhmm (engine : String → Option Int) (t : Nat) (h : t < 1440) :
    parseLocalTime engine (hhmm t) = some ((t : Int) * 60000) := by
  have h1 : t / 60 / 10 < 10 := by omega
  have h2 : t / 60 % 10 < 10 := by omega
  have h3 : t % 60 / 10 < 10 := by omega
  have h4 : t % 60 % 10 < 10 := by omega
  simp only [parseLocalTime, hhmm]
  simp only [digitVal_digitChar _ h1, digitVal_digitChar _ h2, digitVal_digitChar _ h3,
    digitVal_digitChar _ h4]
  have hA : t / 60 / 10 * 10 + t / 60 % 10 < 24 ∧ t % 60 / 10 * 10 + t % 60 % 10 < 60 := by
    omega
  rw [if_pos hA]
  have hv : (t / 60 / 10 * 10 + t / 60 % 10) * 60 + (t % 60 / 10 * 10 + t % 60 % 10) = t := by
    omega
  rw [hv]

theorem toTimeString5_minutes (v : Nat) (h : v < 1440) :
    toTimeString5 ((v : Int) * 60000) = hhmm v := by
  unfold toTimeString5
  congr 1
  omega

end Appointments

namespace Appointments

/-- The iteration bound is never the reason the loop stops: once it covers the
milliseconds between start and end, a larger bound gives the same list. -/
theorem slotLoop_fuel_mono (fuel : Nat) : ∀ (cur e : Int) (fuel2 : Nat),
    (e - cur).toNat ≤ fuel → fuel ≤ fuel2 → slotLoop fuel2 cur e = slotLoop fuel cur e := by
  induction fuel with
  | zero =>
    intro cur e fuel2 h _
    have hle : ¬ cur < e := by omega
    cases fuel2 with
    | zero => rfl
    | succ m => simp [slotLoop, hle]
  | succ n ih =>
    intro cur e fuel2 h h2
    cases fuel2 with
    | zero => omega
    | succ m =>
      by_cases hlt : cur < e
      · simp only [slotLoop, if_pos hlt]
        rw [ih (cur + 30 * 60000) e m (by omega) (by omega)]
      · simp [slotLoop, hlt]

/-- The iteration bound chosen in `getTimeSlots` is never the reason the loop
stops: any larger bound gives the same list. -/
theorem slotLoop_fuel (fuel : Nat) (cur e : Int) (h : (e - cur).toNat ≤ fuel) :
    slotLoop fuel cur e = slotLoop (e - cur).toNat cur e :=
  slotLoop_fuel_mono (e - cur).toNat cur e fuel (le_refl _) h

/-- Closed form of the loop between two whole minutes of the day, when the
iteration bound covers the window. -/
theorem slotLoop_eq (fuel : Nat) : ∀ cur e : Nat, e ≤ 1440 → (e - cur + 29) / 30 ≤ fuel →
    slotLoop fuel ((cur : Int) * 60000) ((e : Int) * 60000) =
      (List.range ((e - cur + 29) / 30)).map (fun k => hhmm (cur + 30 * k)) := by
  induction fuel with
  | zero =>
    intro cur e _ h
    have h0 : (e - cur + 29) / 30 = 0 := by omega
    simp [slotLoop, h0]
  | succ n ih =>
    intro cur e he h
    by_cases hlt : cur < e
    · have hn : (e - cur + 29) / 30 = (e - (cur + 30) + 29) / 30 + 1 := by omega
      have hfun : ((fun k => hhmm (cur + 30 * k)) ∘ Nat.succ) =
          (fun k => hhmm (cur + 30 + 30 * k)) := by
        funext k
        simp only [Function.comp, Nat.succ_eq_add_one]
        congr 1
        omega
      have hlt2 : (cur : Int) * 60000 < (e : Int) * 60000 := by omega
      have hstep : (cur : Int) * 60000 + 30 * 60000 = ((cur + 30 : Nat) : Int) * 60000 := by
        push_cast
        ring
      rw [slotLoop, if_pos hlt2, hstep, ih (cur + 30) e he (by omega), hn,
        List.range_succ_eq_map, List.map_cons, List.map_map, hfun,
        toTimeString5_minutes cur (by omega)]
      simp
    · have h0 : (e - cur + 29) / 30 = 0 := by omega
      have hlt2 : ¬ (cur : Int) * 60000 < (e : Int) * 60000 := by omega
      simp [slotLoop, hlt2, h0]

theorem getTimeSlots_eq (engine : String → Option Int) (s e : Nat) (hs : s < 1440)
    (he : e < 1440) :
    getTimeSlots engine (hhmm s) (hhmm e) =
      (List.range ((e - s + 29) / 30)).map (fun k => hhmm (s + 30 * k)) := by
  simp only [getTimeSlots, parseLocalTime_hhmm engine s hs, parseLocalTime_hhmm engine e he]
  exact slotLoop_eq _ _ _ (by omega) (by omega)

/-- C1. For time-of-day values `s` and `e` (minutes 0..1439, written as zero-padded
`HH:MM`), `getTimeSlots` returns exactly the `HH:MM` strings of `s, s+30, s+60, ...`
taken while strictly below `e`, whatever the engine makes of other strings:
every returned string reads back as its value, the values start with `s` when
`s < e`, are strictly increasing, lie in `[s, e)`, and consecutive ones differ by
exactly 30; when `e ≤ s` the list is empty. -/
theorem getTimeSlots_spec (engine : String → Option Int) (s e : Nat) (hs : s < 1440)
    (he : e < 1440) :
    getTimeSlots engine (hhmm s) (hhmm e) =
        (List.range ((e - s + 29) / 30)).map (fun k => hhmm (s + 30 * k))
    ∧ (getTimeSlots engine (hhmm s) (hhmm e)).map (parseLocalTime engine) =
        (List.range ((e - s + 29) / 30)).map
          (fun k => some (((s + 30 * k : Nat) : Int) * 60000))
    ∧ (∀ k, k < (e - s + 29) / 30 → s ≤ s + 30 * k ∧ s + 30 * k < e)
    ∧ (∀ k, k + 1 < (e - s + 29) / 30 → s + 30 * (k + 1) = (s + 30 * k) + 30)
    ∧ ((List.range ((e - s + 29) / 30)).map (fun k => s + 30 * k)).Pairwise (· < ·)
    ∧ (s < e → (getTimeSlots engine (hhmm s) (hhmm e)).head? = some (hhmm s))
    ∧ (e ≤ s → getTimeSlots engine (hhmm s) (hhmm e) = []) := by
  have hbound : ∀ k, k < (e - s + 29) / 30 → s ≤ s + 30 * k ∧ s + 30 * k < e := by
    intro k hk
    omega
  refine ⟨getTimeSlots_eq engine s e hs he, ?_, hbound, ?_, ?_, ?_, ?_⟩
  · rw [getTimeSlots_eq engine s e hs he, List.map_map]
    apply List.map_congr_left
    intro k hk
    have hk2 := hbound k (List.mem_range.mp hk)
    exact parseLocalTime_hhmm engine _ (by omega)
  · intro k _
    omega
  · rw [List.pairwise_map]
    exact (List.pairwise_lt_range _).imp (by intro a b hab; omega)
  · intro hlt
    have hn : (e - s + 29) / 30 = (e - s + 29) / 30 - 1 + 1 := by omega
    rw [getTimeSlots_eq engine s e hs he, hn, List.range_succ_eq_map]
    simp
  · intro hle
    have h0 : (e - s + 29) / 30 = 0 := by omega
    rw [getTimeSlots_eq engine s e hs he, h0]
    rfl

/-- Witness for C1: the window 09:00-11:00. -/
theorem getTimeSlots_spec_witness :
    540 < 1440 ∧ 660 < 1440
    ∧ hhmm 540 = "09:00" ∧ hhmm 660 = "11:00"
    ∧ getTimeSlots (fun _ => none) (hhmm 540) (hhmm 660) =
        ["09:00", "09:30", "10:00", "10:30"] :=
  ⟨by decide, by decide, by decide, by decide,
   (getTimeSlots_spec (fun _ => none) 540 660 (by decide) (by decide)).1.trans (by decide)⟩

end Appointments

namespace Appointments

/-! ## `bookAppointment`: one lemma per exit -/

theorem book_invalid (sv : Services) (σ : State) (user : Actor) (body : BookBody)
    (hv : ¬ ValidBooking sv user body) :
    (bookAppointment sv σ user body).2 = invalidated σ body
    ∧ ((bookAppointment sv σ user body).1.status = 400
        ∨ (bookAppointment sv σ user body).1.status = 403) := by
  unfold bookAppointment
  by_cases h1 : truthy body.patientId = true ∧ truthy body.doctorId = true
      ∧ truthy body.date = true ∧ truthy body.time = true
  · obtain ⟨a1, a2, a3, a4⟩ := h1
    by_cases h5 : user.role = "patient"
    · by_cases h6 : user.id = render body.patientId
      · by_cases h7 : sv.dateParse (render body.date) = none
        · simp [a1, a2, a3, a4, h5, h6, h7, invalidated]
        · by_cases h8 : timeFormat (render body.time) = true
          · exfalso
            apply hv
            refine ⟨a1, a2, a3, a4, h5, h6, ?_, h8⟩
            cases hd : sv.dateParse (render body.date) with
            | none => exact absurd hd h7
            | some _ => rfl
          · simp [a1, a2, a3, a4, h5, h6, h7, h8, invalidated]
      · simp [a1, a2, a3, a4, h5, h6, invalidated]
    · simp [a1, a2, a3, a4, h5, invalidated]
  · have h1b : (!truthy body.patientId || !truthy body.doctorId || !truthy body.date
        || !truthy body.time) = true := by
      revert h1
      cases truthy body.patientId <;> cases truthy body.doctorId <;>
        cases truthy body.date <;> cases truthy body.time <;> simp
    simp [h1b, invalidated]

theorem book_noAvail (sv : Services) (σ : State) (user : Actor) (body : BookBody)
    (hv : ValidBooking sv user body)
    (h : findAvailability σ.availabilities (render body.doctorId) (render body.date) = none) :
    bookAppointment sv σ user body =
      (⟨409, .message "No availability for this doctor on the selected date"⟩,
        invalidated σ body) := by
  obtain ⟨h1, h2, h3, h4, h5, h6, h7, h8⟩ := hv
  have h7n : ¬ sv.dateParse (render body.date) = none := by
    intro hh
    simp [hh] at h7
  simp [bookAppointment, h1, h2, h3, h4, h5, h6, h7n, h8, h, invalidated]

theorem book_outside (sv : Services) (σ : State) (user : Actor) (body : BookBody)
    (hv : ValidBooking sv user body) (av : Availability)
    (h : findAvailability σ.availabilities (render body.doctorId) (render body.date) = some av)
    (hs : (getTimeSlots sv.localDate av.startTime av.endTime).contains (render body.time) = false) :
    bookAppointment sv σ user body =
      (⟨409, .message "Selected time is not within available slots"⟩, invalidated σ body) := by
  obtain ⟨h1, h2, h3, h4, h5, h6, h7, h8⟩ := hv
  have h7n : ¬ sv.dateParse (render body.date) = none := by
    intro hh
    simp [hh] at h7
  simp at hs
  simp [bookAppointment, h1, h2, h3, h4, h5, h6, h7n, h8, h, hs, invalidated]

theorem book_taken (sv : Services) (σ : State) (user : Actor) (body : BookBody)
    (hv : ValidBooking sv user body) (av : Availability)
    (h : findAvailability σ.availabilities (render body.doctorId) (render body.date) = some av)
    (hs : (getTimeSlots sv.localDate av.startTime av.endTime).contains (render body.time) = true)
    (c : Appointment)
    (hc : findConflict σ.appointments (render body.doctorId) (render body.date)
      (render body.time) = some c) :
    bookAppointment sv σ user body =
      (⟨409, .message "Time slot already booked by another patient"⟩, invalidated σ body) := by
  obtain ⟨h1, h2, h3, h4, h5, h6, h7, h8⟩ := hv
  have h7n : ¬ sv.dateParse (render body.date) = none := by
    intro hh
    simp [hh] at h7
  simp at hs
  simp [bookAppointment, h1, h2, h3, h4, h5, h6, h7n, h8, h, hs, hc, invalidated]

theorem book_ok (sv : Services) (σ : State) (user : Actor) (body : BookBody)
    (hv : ValidBooking sv user body) (av : Availability)
    (h : findAvailability σ.availabilities (render body.doctorId) (render body.date) = some av)
    (hs : (getTimeSlots sv.localDate av.startTime av.endTime).contains (render body.time) = true)
    (hc : findConflict σ.appointments (render body.doctorId) (render body.date)
      (render body.time) = none) :
    bookAppointment sv σ user body =
      bookAfterSave sv
        { invalidated σ body with
          appointments := σ.appointments ++ [newAppointment σ body],
          nextId := σ.nextId + 1 } user (newAppointment σ body)
        (render body.patientId) (render body.doctorId) (render body.date)
        (render body.time) := by
  obtain ⟨h1, h2, h3, h4, h5, h6, h7, h8⟩ := hv
  have h7n : ¬ sv.dateParse (render body.date) = none := by
    intro hh
    simp [hh] at h7
  simp at hs
  simp [bookAppointment, h1, h2, h3, h4, h5, h6, h7n, h8, h, hs, hc, invalidated,
    newAppointment]

/-- The steps after `save()` touch nothing but the list of scheduled notifications. -/
theorem bookAfterSave_state (sv : Services) (σ : State) (user : Actor) (a : Appointment)
    (p d dt t : String) :
    (bookAfterSave sv σ user a p d dt t).2.appointments = σ.appointments
    ∧ (bookAfterSave sv σ user a p d dt t).2.availabilities = σ.availabilities
    ∧ (bookAfterSave sv σ user a p d dt t).2.cache = σ.cache
    ∧ (bookAfterSave sv σ user a p d dt t).2.users = σ.users
    ∧ (bookAfterSave sv σ user a p d dt t).2.nextId = σ.nextId := by
  unfold bookAfterSave
  split
  · dsimp only
    split_ifs
    · simp
    · simp
    · split <;> simp
  · simp

/-- The steps after `save()` answer 201 when all of them go through and the
generic 500 otherwise. -/
theorem bookAfterSave_response (sv : Services) (σ : State) (user : Actor) (a : Appointment) :
    (lateStepsOk sv σ.users user a = true →
      (bookAfterSave sv σ user a a.patientId a.doctorId a.date a.time).1.status = 201)
    ∧ (lateStepsOk sv σ.users user a = false →
      (bookAfterSave sv σ user a a.patientId a.doctorId a.date a.time).1 =
        ⟨500, .message "Internal Server Error"⟩) := by
  unfold bookAfterSave lateStepsOk
  split
  · dsimp only
    split_ifs with h1 h2
    · simp [h1]
    · simp [h1, h2]
    · split <;> simp_all
  · simp

end Appointments

namespace Appointments

/-! ## The queries, read off the stores -/

theorem findAvailability_none_of_forall (l : List Availability) (d dt : String)
    (h : ∀ av ∈ l, ¬ (av.doctorId = d ∧ av.date = dt)) : findAvailability l d dt = none := by
  unfold findAvailability
  rw [List.find?_eq_none]
  intro av hav
  simpa using h av hav

theorem findAvailability_first (pre post : List Availability) (av : Availability)
    (d dt : String) (hpre : ∀ x ∈ pre, ¬ (x.doctorId = d ∧ x.date = dt))
    (h1 : av.doctorId = d) (h2 : av.date = dt) :
    findAvailability (pre ++ av :: post) d dt = some av := by
  unfold findAvailability
  rw [List.find?_append]
  have hnone : List.find? (fun a => a.doctorId == d && a.date == dt) pre = none := by
    rw [List.find?_eq_none]
    intro x hx
    simpa using hpre x hx
  rw [hnone]
  simp [List.find?_cons, h1, h2]

theorem findConflict_isSome_of_exists (l : List Appointment) (d dt t : String)
    (h : ∃ a ∈ l, a.doctorId = d ∧ a.date = dt ∧ a.time = t ∧ a.status ≠ "cancelled") :
    ∃ c, findConflict l d dt t = some c := by
  obtain ⟨a, ha, h1, h2, h3, h4⟩ := h
  have hsome : (findConflict l d dt t).isSome = true := by
    unfold findConflict
    rw [List.find?_isSome]
    exact ⟨a, ha, by simp [occupies, h1, h2, h3, h4]⟩
  cases hc : findConflict l d dt t with
  | none => simp [hc] at hsome
  | some c => exact ⟨c, rfl⟩

theorem findConflict_none_of_forall (l : List Appointment) (d dt t : String)
    (h : ∀ a ∈ l, ¬ (a.doctorId = d ∧ a.date = dt ∧ a.time = t ∧ a.status ≠ "cancelled")) :
    findConflict l d dt t = none := by
  unfold findConflict
  rw [List.find?_eq_none]
  intro a ha ho
  exact h a ha (by simpa [occupies, and_assoc] using ho)

/-- A body with four non-empty fields, sent by the patient it names, with a date
that parses and a time of two digits, a colon and two digits, passes the
validation of `bookAppointment`. -/
theorem validBooking_of_fields (sv : Services) (user : Actor)
    (patientId doctorId date time : String)
    (hp : patientId ≠ "") (hd : doctorId ≠ "") (hdt : date ≠ "")
    (hrole : user.role = "patient") (hid : user.id = patientId)
    (hdate : sv.dateParse date ≠ none)
    (htime : ∃ a b c d : Char, a.isDigit = true ∧ b.isDigit = true ∧ c.isDigit = true
      ∧ d.isDigit = true ∧ time.data = [a, b, ':', c, d]) :
    ValidBooking sv user ⟨some patientId, some doctorId, some date, some time⟩ := by
  obtain ⟨a, b, c, d, ha, hb, hc, hd2, hdata⟩ := htime
  have ht : time ≠ "" := by
    intro h
    rw [h] at hdata
    simp at hdata
  refine ⟨by simpa [truthy] using hp, by simpa [truthy] using hd,
    by simpa [truthy] using hdt, by simpa [truthy] using ht, hrole, hid, ?_, ?_⟩
  · cases hdp : sv.dateParse date with
    | none => exact absurd hdp hdate
    | some _ => simp [render, hdp]
  · simp [render, timeFormat, hdata, ha, hb, hc, hd2]

/-- C2. A booking request that passes the field, role/identity, date and
time-format validation is decided in this order. If the store holds no
Availability record for (doctorId, date), the answer is 409 no-availability.
Otherwise, with `av` the first such record: if `time` is not an element of
`getTimeSlots(av.startTime, av.endTime)` the answer is 409 outside-window;
otherwise, if the Appointment Store holds an appointment with the same
(doctorId, date, time) and status other than cancelled, the answer is 409
slot-taken; otherwise the appointment
`{patientId, doctorId, date, time, status: confirmed}` is appended to the store.
The three refusals leave the store as it was. -/
theorem bookAppointment_decision_order (sv : Services) (σ : State) (user : Actor)
    (patientId doctorId date time : String)
    (hp : patientId ≠ "") (hd : doctorId ≠ "") (hdt : date ≠ "")
    (hrole : user.role = "patient") (hid : user.id = patientId)
    (hdate : sv.dateParse date ≠ none)
    (htime : ∃ a b c d : Char, a.isDigit = true ∧ b.isDigit = true ∧ c.isDigit = true
      ∧ d.isDigit = true ∧ time.data = [a, b, ':', c, d]) :
    ((∀ av ∈ σ.availabilities, ¬ (av.doctorId = doctorId ∧ av.date = date)) →
      (bookAppointment sv σ user ⟨some patientId, some doctorId, some date, some time⟩).1 =
          ⟨409, .message "No availability for this doctor on the selected date"⟩
        ∧ (bookAppointment sv σ user
            ⟨some patientId, some doctorId, some date, some time⟩).2.appointments =
          σ.appointments)
    ∧ (∀ pre av post, σ.availabilities = pre ++ av :: post →
        (∀ x ∈ pre, ¬ (x.doctorId = doctorId ∧ x.date = date)) →
        av.doctorId = doctorId → av.date = date →
        (time ∉ getTimeSlots sv.localDate av.startTime av.endTime →
          (bookAppointment sv σ user
              ⟨some patientId, some doctorId, some date, some time⟩).1 =
              ⟨409, .message "Selected time is not within available slots"⟩
            ∧ (bookAppointment sv σ user
                ⟨some patientId, some doctorId, some date, some time⟩).2.appointments =
              σ.appointments)
        ∧ (time ∈ getTimeSlots sv.localDate av.startTime av.endTime →
            ((∃ a ∈ σ.appointments, a.doctorId = doctorId ∧ a.date = date ∧ a.time = time
                ∧ a.status ≠ "cancelled") →
              (bookAppointment sv σ user
                  ⟨some patientId, some doctorId, some date, some time⟩).1 =
                  ⟨409, .message "Time slot already booked by another patient"⟩
                ∧ (bookAppointment sv σ user
                    ⟨some patientId, some doctorId, some date, some time⟩).2.appointments =
                  σ.appointments)
            ∧ ((∀ a ∈ σ.appointments, ¬ (a.doctorId = doctorId ∧ a.date = date
                ∧ a.time = time ∧ a.status ≠ "cancelled")) →
              (bookAppointment sv σ user
                  ⟨some patientId, some doctorId, some date, some time⟩).2.appointments =
                σ.appointments ++
                  [⟨σ.nextId, patientId, doctorId, date, time, "confirmed"⟩]))) := by
  have hv := validBooking_of_fields sv user patientId doctorId date time hp hd hdt hrole hid
    hdate htime
  refine ⟨fun h => ?_, fun pre av post hl hpre h1 h2 =>
    ⟨fun hs => ?_, fun hs => ⟨fun hc => ?_, fun hc => ?_⟩⟩⟩
  · rw [book_noAvail sv σ user _ hv (findAvailability_none_of_forall _ _ _ h)]
    exact ⟨rfl, rfl⟩
  · have hav : findAvailability σ.availabilities doctorId date = some av := by
      rw [hl]
      exact findAvailability_first pre post av doctorId date hpre h1 h2
    rw [book_outside sv σ user _ hv av hav (by simpa using hs)]
    exact ⟨rfl, rfl⟩
  · have hav : findAvailability σ.availabilities doctorId date = some av := by
      rw [hl]
      exact findAvailability_first pre post av doctorId date hpre h1 h2
    obtain ⟨c, hcf⟩ := findConflict_isSome_of_exists σ.appointments doctorId date time hc
    rw [book_taken sv σ user _ hv av hav (by simpa using hs) c hcf]
    exact ⟨rfl, rfl⟩
  · have hav : findAvailability σ.availabilities doctorId date = some av := by
      rw [hl]
      exact findAvailability_first pre post av doctorId date hpre h1 h2
    have hcf := findConflict_none_of_forall σ.appointments doctorId date time hc
    rw [book_ok sv σ user _ hv av hav (by simpa using hs) hcf]
    exact (bookAfterSave_state _ _ _ _ _ _ _ _).1

/-- Witness for C2, the scenario of the claim: with the window 09:00-11:00 for D1
on 2025-01-10, 09:00 books, 09:00 again is slot-taken, 10:45 is outside the
window, and 2025-01-11 has no availability. -/
theorem bookAppointment_decision_order_witness :
    (bookAppointment demoServices demoState ⟨"P1", "patient"⟩
        (demoRequest "P1" "2025-01-10" "09:00")).2.appointments =
        [⟨0, "P1", "D1", "2025-01-10", "09:00", "confirmed"⟩]
    ∧ (bookAppointment demoServices demoState ⟨"P1", "patient"⟩
        (demoRequest "P1" "2025-01-10" "09:00")).1.status = 201
    ∧ (bookAppointment demoServices
        (bookAppointment demoServices demoState ⟨"P1", "patient"⟩
          (demoRequest "P1" "2025-01-10" "09:00")).2 ⟨"P2", "patient"⟩
        (demoRequest "P2" "2025-01-10" "09:00")).1 =
        ⟨409, .message "Time slot already booked by another patient"⟩
    ∧ (bookAppointment demoServices
        (bookAppointment demoServices demoState ⟨"P1", "patient"⟩
          (demoRequest "P1" "2025-01-10" "09:00")).2 ⟨"P1", "patient"⟩
        (demoRequest "P1" "2025-01-10" "10:45")).1 =
        ⟨409, .message "Selected time is not within available slots"⟩
    ∧ (bookAppointment demoServices
        (bookAppointment demoServices demoState ⟨"P1", "patient"⟩
          (demoRequest "P1" "2025-01-10" "09:00")).2 ⟨"P1", "patient"⟩
        (demoRequest "P1" "2025-01-11" "09:00")).1 =
        ⟨409, .message "No availability for this doctor on the selected date"⟩ :=
  ⟨((((bookAppointment_decision_order demoServices demoState ⟨"P1", "patient"⟩
      "P1" "D1" "2025-01-10" "09:00" (by decide) (by decide) (by decide) rfl rfl
      (by decide) ⟨'0', '9', '0', '0', by decide⟩).2
      [] ⟨"D1", "2025-01-10", "09:00", "11:00"⟩ [] rfl (by decide) rfl rfl).2
      (by decide)).2 (by decide)),
   by decide,
   ((((bookAppointment_decision_order demoServices _ ⟨"P2", "patient"⟩
      "P2" "D1" "2025-01-10" "09:00" (by decide) (by decide) (by decide) rfl rfl
      (by decide) ⟨'0', '9', '0', '0', by decide⟩).2
      [] ⟨"D1", "2025-01-10", "09:00", "11:00"⟩ [] (by decide) (by decide) rfl rfl).2
      (by decide)).1 ⟨⟨0, "P1", "D1", "2025-01-10", "09:00", "confirmed"⟩, by decide⟩).1,
   (((bookAppointment_decision_order demoServices _ ⟨"P1", "patient"⟩
      "P1" "D1" "2025-01-10" "10:45" (by decide) (by decide) (by decide) rfl rfl
      (by decide) ⟨'1', '0', '4', '5', by decide⟩).2
      [] ⟨"D1", "2025-01-10", "09:00", "11:00"⟩ [] (by decide) (by decide) rfl rfl).1
      (by decide)).1,
   ((bookAppointment_decision_order demoServices _ ⟨"P1", "patient"⟩
      "P1" "D1" "2025-01-11" "09:00" (by decide) (by decide) (by decide) rfl rfl
      (by decide) ⟨'0', '9', '0', '0', by decide⟩).1 (by decide)).1⟩

end Appointments

namespace Appointments

/-! ## The uniqueness invariant -/

theorem findById_cons (x : Appointment) (rest : List Appointment) (id : Nat) :
    findById (x :: rest) id = if x._id = id then some x else findById rest id := by
  unfold findById
  rw [List.find?_cons]
  by_cases hx : x._id = id
  · simp [hx]
  · have hb : (x._id == id) = false := by simpa using hx
    simp [hx, hb]

theorem updateById_of_findById_none (id : Nat) (f : Appointment → Appointment) :
    ∀ l : List Appointment, findById l id = none → updateById id f l = l := by
  intro l
  induction l with
  | nil => intro _; rfl
  | cons x rest ih =>
    intro h
    rw [findById_cons] at h
    by_cases hx : x._id = id
    · simp [hx] at h
    · have h2 : findById rest id = none := by
        simpa [hx] using h
      simp [updateById, hx, ih h2]

/-- Updating the document found under `id` moves one unit of occupancy from the
slot of the old document to the slot of the new one. -/
theorem activeAt_updateById (id : Nat) (f : Appointment → Appointment) (d dt t : String) :
    ∀ (l : List Appointment) (a : Appointment), findById l id = some a →
      activeAt (updateById id f l) d dt t + (if occupies d dt t a = true then 1 else 0) =
        activeAt l d dt t + (if occupies d dt t (f a) = true then 1 else 0) := by
  intro l
  induction l with
  | nil => intro a h; simp [findById] at h
  | cons x rest ih =>
    intro a h
    rw [findById_cons] at h
    by_cases hx : x._id = id
    · have hxa : x = a := by
        simpa [hx] using h
      subst hxa
      simp only [updateById, hx, if_true, activeAt, List.filter_cons]
      by_cases h1 : occupies d dt t x = true <;> by_cases h2 : occupies d dt t (f x) = true <;>
        simp [h1, h2]
    · have h2 : findById rest id = some a := by
        simpa [hx] using h
      have := ih a h2
      simp only [updateById, hx, if_false, activeAt, List.filter_cons] at this ⊢
      by_cases h1 : occupies d dt t x = true
      · simp only [h1, if_true, List.length_cons]
        omega
      · simp only [h1]
        exact this

theorem activeAt_pos_of_findById (id : Nat) (d dt t : String) (l : List Appointment)
    (a : Appointment) (h : findById l id = some a) (ho : occupies d dt t a = true) :
    1 ≤ activeAt l d dt t := by
  have hm : a ∈ l.filter (occupies d dt t) :=
    List.mem_filter.mpr ⟨List.mem_of_find?_eq_some h, ho⟩
  exact List.length_pos_of_mem hm

theorem activeAt_append_singleton (l : List Appointment) (a : Appointment) (d dt t : String) :
    activeAt (l ++ [a]) d dt t =
      activeAt l d dt t + (if occupies d dt t a = true then 1 else 0) := by
  unfold activeAt
  rw [List.filter_append, List.length_append]
  by_cases h : occupies d dt t a = true <;> simp [h]

theorem activeAt_eq_zero_of_findConflict_none (l : List Appointment) (d dt t : String)
    (h : findConflict l d dt t = none) : activeAt l d dt t = 0 := by
  unfold activeAt
  unfold findConflict at h
  rw [List.length_eq_zero, List.filter_eq_nil_iff]
  intro a ha
  have := List.find?_eq_none.mp h a ha
  simpa using this

theorem occupies_key (d dt t : String) (a : Appointment) (h : occupies d dt t a = true) :
    a.doctorId = d ∧ a.date = dt ∧ a.time = t ∧ a.status ≠ "cancelled" := by
  simpa [occupies, and_assoc] using h

/-- The invariant can be checked at the slots of the stored appointments. -/
theorem uniqueActive_iff (l : List Appointment) :
    UniqueActive l ↔ ∀ a ∈ l, activeAt l a.doctorId a.date a.time ≤ 1 := by
  constructor
  · intro h a _
    exact h _ _ _
  · intro h d dt t
    by_cases h0 : activeAt l d dt t = 0
    · omega
    · have hne : l.filter (occupies d dt t) ≠ [] := by
        intro hnil
        apply h0
        unfold activeAt
        rw [hnil]
        rfl
      obtain ⟨a, ha⟩ := List.exists_mem_of_ne_nil _ hne
      obtain ⟨hal, hocc⟩ := List.mem_filter.mp ha
      obtain ⟨h1, h2, h3, _⟩ := occupies_key d dt t a hocc
      have := h a hal
      rw [h1, h2, h3] at this
      exact this

/-- What `bookAppointment` does to the appointment store: nothing, or it appends
the new document, and only when the conflict query found nothing. -/
theorem bookAppointment_appointments (sv : Services) (σ : State) (user : Actor)
    (body : BookBody) :
    (bookAppointment sv σ user body).2.appointments = σ.appointments
    ∨ ((bookAppointment sv σ user body).2.appointments =
          σ.appointments ++ [newAppointment σ body]
        ∧ findConflict σ.appointments (render body.doctorId) (render body.date)
            (render body.time) = none) := by
  by_cases hv : ValidBooking sv user body
  · cases h : findAvailability σ.availabilities (render body.doctorId) (render body.date) with
    | none =>
      left
      rw [book_noAvail sv σ user body hv h]
      rfl
    | some av =>
      cases hs : (getTimeSlots sv.localDate av.startTime av.endTime).contains (render body.time) with
      | false =>
        left
        rw [book_outside sv σ user body hv av h hs]
        rfl
      | true =>
        cases hc : findConflict σ.appointments (render body.doctorId) (render body.date)
            (render body.time) with
        | some c =>
          left
          rw [book_taken sv σ user body hv av h hs c hc]
          rfl
        | none =>
          right
          rw [book_ok sv σ user body hv av h hs hc]
          exact ⟨(bookAfterSave_state _ _ _ _ _ _ _ _).1, rfl⟩
  · left
    rw [(book_invalid sv σ user body hv).1]
    rfl

end Appointments

namespace Appointments

theorem rescheduleAppointment_appointments (sv : Services) (σ : State) (user : Actor)
    (id : Nat) (newDate newTime : String) :
    (rescheduleAppointment sv σ user id newDate newTime).2.appointments =
      updateById id (fun a => { a with date := newDate, time := newTime }) σ.appointments := by
  unfold rescheduleAppointment
  cases h : findById σ.appointments id with
  | none => simp [updateById_of_findById_none id _ _ h]
  | some a =>
    dsimp only
    split <;> rfl

theorem cancelAppointment_appointments (σ : State) (id : Nat) :
    (cancelAppointment σ id).2.appointments =
      updateById id (fun a => { a with status := "cancelled" }) σ.appointments := by
  unfold cancelAppointment
  cases h : findById σ.appointments id with
  | none => simp [updateById_of_findById_none id _ _ h]
  | some a => rfl

theorem updateAppointmentStatus_appointments (σ : State) (id : Nat) (status : String) :
    (updateAppointmentStatus σ id status).2.appointments =
      updateById id (fun a => { a with status := status }) σ.appointments := by
  unfold updateAppointmentStatus
  cases h : findById σ.appointments id with
  | none => simp [updateById_of_findById_none id _ _ h]
  | some a => rfl

theorem le_one_of_move (n m : Nat) (b c : Bool)
    (key : n + (if b = true then 1 else 0) = m + (if c = true then 1 else 0))
    (hm : m ≤ 1) (hc : c = true → b = true ∨ m = 0) : n ≤ 1 := by
  cases b <;> cases c <;> simp at key hc <;> omega

/-- Counterexample to C3 as stated: rescheduling the 09:30 appointment onto the
09:00 slot that another confirmed appointment holds is answered 200 and leaves two
confirmed appointments in one slot; so does setting a cancelled appointment back to
confirmed after its slot was booked again. -/
theorem uniqueActive_not_preserved :
    (UniqueActive demoTwoBooked.appointments
      ∧ (rescheduleAppointment demoServices demoTwoBooked ⟨"P2", "patient"⟩ 1
          "2025-01-10" "09:00").1.status = 200
      ∧ ¬ UniqueActive (rescheduleAppointment demoServices demoTwoBooked ⟨"P2", "patient"⟩ 1
          "2025-01-10" "09:00").2.appointments)
    ∧ (UniqueActive demoRebooked.appointments
      ∧ (updateAppointmentStatus demoRebooked 0 "confirmed").1.status = 200
      ∧ ¬ UniqueActive (updateAppointmentStatus demoRebooked 0 "confirmed").2.appointments) := by
  refine ⟨⟨?_, by decide, ?_⟩, ⟨?_, by decide, ?_⟩⟩
  · rw [uniqueActive_iff]
    decide
  · intro h
    exact absurd (h "D1" "2025-01-10" "09:00") (by decide)
  · rw [uniqueActive_iff]
    decide
  · intro h
    exact absurd (h "D1" "2025-01-10" "09:00") (by decide)

/-- C3, amended. Under sequential execution `bookAppointment` and
`cancelAppointment` preserve the uniqueness invariant on every input;
`rescheduleAppointment` preserves it when the moved appointment is cancelled,
keeps its slot, or moves to a slot that no non-cancelled appointment of that
doctor holds; `updateAppointmentStatus` preserves it unless it takes a cancelled
appointment to another status while a non-cancelled appointment holds its slot. -/
theorem uniqueActive_preserved (sv : Services) (σ : State)
    (h : UniqueActive σ.appointments) :
    (∀ user body, UniqueActive (bookAppointment sv σ user body).2.appointments)
    ∧ (∀ id, UniqueActive (cancelAppointment σ id).2.appointments)
    ∧ (∀ user id newDate newTime,
        (∀ a, findById σ.appointments id = some a → a.status ≠ "cancelled" →
          (a.date = newDate ∧ a.time = newTime)
            ∨ activeAt σ.appointments a.doctorId newDate newTime = 0) →
        UniqueActive (rescheduleAppointment sv σ user id newDate newTime).2.appointments)
    ∧ (∀ id status,
        (∀ a, findById σ.appointments id = some a → a.status = "cancelled" →
          status ≠ "cancelled" → activeAt σ.appointments a.doctorId a.date a.time = 0) →
        UniqueActive (updateAppointmentStatus σ id status).2.appointments) := by
  refine ⟨?_, ?_, ?_, ?_⟩
  · intro user body d dt t
    rcases bookAppointment_appointments sv σ user body with hsame | ⟨happ, hfree⟩
    · rw [hsame]
      exact h d dt t
    · rw [happ, activeAt_append_singleton]
      by_cases ho : occupies d dt t (newAppointment σ body) = true
      · obtain ⟨h1, h2, h3, _⟩ := occupies_key d dt t _ ho
        have hz := activeAt_eq_zero_of_findConflict_none _ _ _ _ hfree
        have h1' : render body.doctorId = d := h1
        have h2' : render body.date = dt := h2
        have h3' : render body.time = t := h3
        rw [h1', h2', h3'] at hz
        simp [ho, hz]
      · simp only [ho]
        exact h d dt t
  · intro id d dt t
    rw [cancelAppointment_appointments]
    cases hf : findById σ.appointments id with
    | none =>
      rw [updateById_of_findById_none id _ _ hf]
      exact h d dt t
    | some a =>
      have key := activeAt_updateById id (fun a => { a with status := "cancelled" }) d dt t
        σ.appointments a hf
      have hnot : occupies d dt t { a with status := "cancelled" } = false := by
        simp [occupies]
      refine le_one_of_move _ _ _ _ key (h d dt t) ?_
      intro hc
      rw [hnot] at hc
      cases hc
  · intro user id newDate newTime hcond d dt t
    rw [rescheduleAppointment_appointments]
    cases hf : findById σ.appointments id with
    | none =>
      rw [updateById_of_findById_none id _ _ hf]
      exact h d dt t
    | some a =>
      have key := activeAt_updateById id
        (fun a => { a with date := newDate, time := newTime }) d dt t σ.appointments a hf
      refine le_one_of_move _ _ _ _ key (h d dt t) ?_
      intro hnew
      obtain ⟨h1, h2, h3, h4⟩ := occupies_key d dt t _ hnew
      have h1' : a.doctorId = d := h1
      have h2' : newDate = dt := h2
      have h3' : newTime = t := h3
      have h4' : a.status ≠ "cancelled" := h4
      rcases hcond a hf h4' with ⟨e1, e2⟩ | hz
      · left
        have hsame : ({ a with date := newDate, time := newTime } : Appointment) = a := by
          cases a
          simp_all
        have hnew2 : occupies d dt t { a with date := newDate, time := newTime } = true :=
          hnew
        rw [hsame] at hnew2
        exact hnew2
      · right
        rw [h1', h2', h3'] at hz
        exact hz
  · intro id status hcond d dt t
    rw [updateAppointmentStatus_appointments]
    cases hf : findById σ.appointments id with
    | none =>
      rw [updateById_of_findById_none id _ _ hf]
      exact h d dt t
    | some a =>
      have key := activeAt_updateById id (fun a => { a with status := status }) d dt t
        σ.appointments a hf
      refine le_one_of_move _ _ _ _ key (h d dt t) ?_
      intro hnew
      obtain ⟨h1, h2, h3, h4⟩ := occupies_key d dt t _ hnew
      have h1' : a.doctorId = d := h1
      have h2' : a.date = dt := h2
      have h3' : a.time = t := h3
      have h4' : status ≠ "cancelled" := h4
      by_cases hc : a.status = "cancelled"
      · right
        have hz := hcond a hf hc h4'
        rw [h1', h2', h3'] at hz
        exact hz
      · left
        simp [occupies, h1', h2', h3', hc]

/-- Witness for C3 (amended): the two confirmed appointments of `demoTwoBooked`
satisfy the invariant, and it survives a booking. -/
theorem uniqueActive_preserved_witness :
    UniqueActive demoTwoBooked.appointments
    ∧ UniqueActive (bookAppointment demoServices demoTwoBooked ⟨"P1", "patient"⟩
        (demoRequest "P1" "2025-01-10" "10:00")).2.appointments :=
  ⟨(uniqueActive_iff _).mpr (by decide),
   (uniqueActive_preserved demoServices demoTwoBooked
      ((uniqueActive_iff _).mpr (by decide))).1 _ _⟩

end Appointments

namespace Appointments

/-! ## Successful bookings -/

/-- A 201 answer means the request passed validation and all three conflict checks. -/
theorem book_created_inv (sv : Services) (σ : State) (user : Actor) (body : BookBody)
    (h201 : (bookAppointment sv σ user body).1.status = 201) :
    ValidBooking sv user body
    ∧ ∃ av, findAvailability σ.availabilities (render body.doctorId) (render body.date)
          = some av
        ∧ (getTimeSlots sv.localDate av.startTime av.endTime).contains (render body.time) = true
        ∧ findConflict σ.appointments (render body.doctorId) (render body.date)
            (render body.time) = none := by
  by_cases hv : ValidBooking sv user body
  · refine ⟨hv, ?_⟩
    cases h : findAvailability σ.availabilities (render body.doctorId) (render body.date) with
    | none =>
      rw [book_noAvail sv σ user body hv h] at h201
      simp at h201
    | some av =>
      cases hs : (getTimeSlots sv.localDate av.startTime av.endTime).contains (render body.time) with
      | false =>
        rw [book_outside sv σ user body hv av h hs] at h201
        simp at h201
      | true =>
        cases hc : findConflict σ.appointments (render body.doctorId) (render body.date)
            (render body.time) with
        | some c =>
          rw [book_taken sv σ user body hv av h hs c hc] at h201
          simp at h201
        | none => exact ⟨av, rfl, hs, rfl⟩
  · rcases (book_invalid sv σ user body hv).2 with h | h <;> rw [h] at h201 <;> simp at h201

/-- The state a persisting booking leaves: the two list caches of the request
invalidated, the new appointment appended, the id counter advanced. -/
theorem book_ok_state (sv : Services) (σ : State) (user : Actor) (body : BookBody)
    (hv : ValidBooking sv user body) (av : Availability)
    (h : findAvailability σ.availabilities (render body.doctorId) (render body.date) = some av)
    (hs : (getTimeSlots sv.localDate av.startTime av.endTime).contains (render body.time) = true)
    (hc : findConflict σ.appointments (render body.doctorId) (render body.date)
      (render body.time) = none) :
    (bookAppointment sv σ user body).2.appointments = σ.appointments ++ [newAppointment σ body]
    ∧ (bookAppointment sv σ user body).2.availabilities = σ.availabilities
    ∧ (bookAppointment sv σ user body).2.cache = (invalidated σ body).cache
    ∧ (bookAppointment sv σ user body).2.users = σ.users
    ∧ (bookAppointment sv σ user body).2.nextId = σ.nextId + 1 := by
  rw [book_ok sv σ user body hv av h hs hc]
  exact bookAfterSave_state _ _ _ _ _ _ _ _

/-- C4. After a booking request for (doctorId, date, time) has succeeded, a second
valid booking request for the same (doctorId, date, time) made directly
afterwards, by the same or any other patient, is answered 409 slot-taken and
creates no appointment. -/
theorem second_booking_slot_taken (sv : Services) (σ : State) (user user2 : Actor)
    (body body2 : BookBody)
    (h201 : (bookAppointment sv σ user body).1.status = 201)
    (hv2 : ValidBooking sv user2 body2)
    (hd : render body2.doctorId = render body.doctorId)
    (hdt : render body2.date = render body.date)
    (ht : render body2.time = render body.time) :
    (bookAppointment sv (bookAppointment sv σ user body).2 user2 body2).1 =
        ⟨409, .message "Time slot already booked by another patient"⟩
    ∧ (bookAppointment sv (bookAppointment sv σ user body).2 user2 body2).2.appointments =
        (bookAppointment sv σ user body).2.appointments := by
  obtain ⟨hv, av, hav, hs, hc⟩ := book_created_inv sv σ user body h201
  obtain ⟨happ, havail, _, _, _⟩ := book_ok_state sv σ user body hv av hav hs hc
  have hav2 : findAvailability (bookAppointment sv σ user body).2.availabilities
      (render body2.doctorId) (render body2.date) = some av := by
    rw [havail, hd, hdt]
    exact hav
  have hs2 : (getTimeSlots sv.localDate av.startTime av.endTime).contains (render body2.time) = true := by
    rw [ht]
    exact hs
  have hocc : occupies (render body2.doctorId) (render body2.date) (render body2.time)
      (newAppointment σ body) = true := by
    simp [occupies, newAppointment, hd, hdt, ht]
  have hsome : (findConflict (bookAppointment sv σ user body).2.appointments
      (render body2.doctorId) (render body2.date) (render body2.time)).isSome = true := by
    unfold findConflict
    rw [List.find?_isSome, happ]
    exact ⟨newAppointment σ body, by simp, hocc⟩
  cases hc2 : findConflict (bookAppointment sv σ user body).2.appointments
      (render body2.doctorId) (render body2.date) (render body2.time) with
  | none => simp [hc2] at hsome
  | some c =>
    rw [book_taken sv _ user2 body2 hv2 av hav2 hs2 c hc2]
    exact ⟨rfl, rfl⟩

/-- Witness for C4: P1 books D1 at 09:00, then P2 asks for the same slot. -/
theorem second_booking_slot_taken_witness :
    (bookAppointment demoServices demoState ⟨"P1", "patient"⟩
        (demoRequest "P1" "2025-01-10" "09:00")).1.status = 201
    ∧ ValidBooking demoServices ⟨"P2", "patient"⟩ (demoRequest "P2" "2025-01-10" "09:00")
    ∧ (bookAppointment demoServices
        (bookAppointment demoServices demoState ⟨"P1", "patient"⟩
          (demoRequest "P1" "2025-01-10" "09:00")).2 ⟨"P2", "patient"⟩
        (demoRequest "P2" "2025-01-10" "09:00")).1 =
        ⟨409, .message "Time slot already booked by another patient"⟩ :=
  ⟨by decide, by decide,
   (second_booking_slot_taken demoServices demoState ⟨"P1", "patient"⟩ ⟨"P2", "patient"⟩
      (demoRequest "P1" "2025-01-10" "09:00") (demoRequest "P2" "2025-01-10" "09:00")
      (by decide) (by decide) rfl rfl rfl).1⟩

end Appointments

namespace Appointments

/-! ## Cache invalidation -/

theorem cacheAbsent_cacheDel_self (c : List CacheEntry) (k : String) :
    cacheAbsent (cacheDel c k) k := by
  unfold cacheAbsent cacheDel
  rw [List.find?_eq_none]
  intro e he
  have := (List.mem_filter.mp he).2
  simpa using this

theorem cacheAbsent_cacheDel_of_absent (c : List CacheEntry) (k k2 : String)
    (h : cacheAbsent c k) : cacheAbsent (cacheDel c k2) k := by
  unfold cacheAbsent cacheDel at *
  rw [List.find?_eq_none] at h ⊢
  intro e he
  exact h e (List.mem_filter.mp he).1

theorem cacheAbsent_after_invalidation (c : List CacheEntry) (kp kd : String) :
    cacheAbsent (cacheDel (cacheDel c kp) kd) kp
    ∧ cacheAbsent (cacheDel (cacheDel c kp) kd) kd :=
  ⟨cacheAbsent_cacheDel_of_absent _ _ _ (cacheAbsent_cacheDel_self c kp),
   cacheAbsent_cacheDel_self _ kd⟩

theorem cacheGet_of_absent (c : List CacheEntry) (k : String) (now : Nat)
    (h : cacheAbsent c k) : cacheGet c k now = (none, c) := by
  unfold cacheAbsent at h
  simp [cacheGet, h]

theorem getAppointmentsByPatient_of_absent (sv : Services) (σ : State) (now : Nat)
    (user : Actor) (patientId : String)
    (h : cacheAbsent σ.cache ("appointments_patient_" ++ patientId)) :
    (getAppointmentsByPatient sv σ now user patientId).1 =
      (getAppointmentsByPatient sv { σ with cache := [] } now user patientId).1 := by
  have h0 : cacheAbsent ([] : List CacheEntry) ("appointments_patient_" ++ patientId) := rfl
  unfold getAppointmentsByPatient
  dsimp only
  rw [cacheGet_of_absent _ _ now h, cacheGet_of_absent _ _ now h0]
  dsimp only
  split_ifs
  · rfl
  · rfl
  · split <;> rfl

theorem getAppointmentsByDoctor_of_absent (σ : State) (now : Nat)
    (user : Actor) (doctorId : String)
    (h : cacheAbsent σ.cache ("appointments_doctor_" ++ doctorId)) :
    (getAppointmentsByDoctor σ now user doctorId).1 =
      (getAppointmentsByDoctor { σ with cache := [] } now user doctorId).1 := by
  have h0 : cacheAbsent ([] : List CacheEntry) ("appointments_doctor_" ++ doctorId) := rfl
  unfold getAppointmentsByDoctor
  dsimp only
  rw [cacheGet_of_absent _ _ now h, cacheGet_of_absent _ _ now h0]
  dsimp only
  split_ifs <;> rfl

theorem readsFromStore_of_absent (sv : Services) (σ : State) (patientId doctorId : String)
    (hp : cacheAbsent σ.cache ("appointments_patient_" ++ patientId))
    (hd : cacheAbsent σ.cache ("appointments_doctor_" ++ doctorId)) :
    ReadsFromStore sv σ patientId doctorId :=
  ⟨hp, hd, fun now user => getAppointmentsByPatient_of_absent sv σ now user patientId hp,
    fun now user => getAppointmentsByDoctor_of_absent σ now user doctorId hd⟩

end Appointments

namespace Appointments

theorem rescheduleAppointment_cache (sv : Services) (σ : State) (user : Actor) (id : Nat)
    (newDate newTime : String) (a : Appointment) (h : findById σ.appointments id = some a) :
    (rescheduleAppointment sv σ user id newDate newTime).2.cache =
      cacheDel (cacheDel σ.cache ("appointments_patient_" ++ a.patientId))
        ("appointments_doctor_" ++ a.doctorId) := by
  unfold rescheduleAppointment
  rw [h]
  dsimp only
  split <;> rfl

theorem cancelAppointment_cache (σ : State) (id : Nat) (a : Appointment)
    (h : findById σ.appointments id = some a) :
    (cancelAppointment σ id).2.cache =
      cacheDel (cacheDel σ.cache ("appointments_patient_" ++ a.patientId))
        ("appointments_doctor_" ++ a.doctorId) := by
  unfold cancelAppointment
  rw [h]

theorem updateAppointmentStatus_cache (σ : State) (id : Nat) (status : String)
    (a : Appointment) (h : findById σ.appointments id = some a) :
    (updateAppointmentStatus σ id status).2.cache =
      cacheDel (cacheDel σ.cache ("appointments_patient_" ++ a.patientId))
        ("appointments_doctor_" ++ a.doctorId) := by
  unfold updateAppointmentStatus
  rw [h]

/-- C5. Under sequential execution, after a successful `bookAppointment`,
`rescheduleAppointment`, `cancelAppointment` or `updateAppointmentStatus` on an
appointment A, the cache holds no entry under `appointments_patient_<A.patientId>`
or `appointments_doctor_<A.doctorId>`, and the next `getAppointmentsByPatient` /
`getAppointmentsByDoctor` for those subjects, by any actor at any time, answers
what it computes from the store. -/
theorem mutation_invalidates_lists (sv : Services) (σ : State) :
    (∀ user body, (bookAppointment sv σ user body).1.status = 201 →
      newAppointment σ body ∈ (bookAppointment sv σ user body).2.appointments
      ∧ ReadsFromStore sv (bookAppointment sv σ user body).2
          (newAppointment σ body).patientId (newAppointment σ body).doctorId)
    ∧ (∀ user id newDate newTime a, findById σ.appointments id = some a →
        (rescheduleAppointment sv σ user id newDate newTime).1.status = 200 →
        ReadsFromStore sv (rescheduleAppointment sv σ user id newDate newTime).2
          a.patientId a.doctorId)
    ∧ (∀ id a, findById σ.appointments id = some a →
        (cancelAppointment σ id).1.status = 200 →
        ReadsFromStore sv (cancelAppointment σ id).2 a.patientId a.doctorId)
    ∧ (∀ id status a, findById σ.appointments id = some a →
        (updateAppointmentStatus σ id status).1.status = 200 →
        ReadsFromStore sv (updateAppointmentStatus σ id status).2 a.patientId a.doctorId) := by
  refine ⟨?_, ?_, ?_, ?_⟩
  · intro user body h201
    obtain ⟨hv, av, hav, hs, hc⟩ := book_created_inv sv σ user body h201
    obtain ⟨happ, _, hcache, _, _⟩ := book_ok_state sv σ user body hv av hav hs hc
    refine ⟨by rw [happ]; simp, ?_⟩
    have hk := cacheAbsent_after_invalidation σ.cache
      ("appointments_patient_" ++ render body.patientId)
      ("appointments_doctor_" ++ render body.doctorId)
    apply readsFromStore_of_absent
    · rw [hcache]
      exact hk.1
    · rw [hcache]
      exact hk.2
  · intro user id newDate newTime a hf _
    have hk := cacheAbsent_after_invalidation σ.cache
      ("appointments_patient_" ++ a.patientId) ("appointments_doctor_" ++ a.doctorId)
    apply readsFromStore_of_absent
    · rw [rescheduleAppointment_cache sv σ user id newDate newTime a hf]
      exact hk.1
    · rw [rescheduleAppointment_cache sv σ user id newDate newTime a hf]
      exact hk.2
  · intro id a hf _
    have hk := cacheAbsent_after_invalidation σ.cache
      ("appointments_patient_" ++ a.patientId) ("appointments_doctor_" ++ a.doctorId)
    apply readsFromStore_of_absent
    · rw [cancelAppointment_cache σ id a hf]
      exact hk.1
    · rw [cancelAppointment_cache σ id a hf]
      exact hk.2
  · intro id status a hf _
    have hk := cacheAbsent_after_invalidation σ.cache
      ("appointments_patient_" ++ a.patientId) ("appointments_doctor_" ++ a.doctorId)
    apply readsFromStore_of_absent
    · rw [updateAppointmentStatus_cache σ id status a hf]
      exact hk.1
    · rw [updateAppointmentStatus_cache σ id status a hf]
      exact hk.2

end Appointments

namespace Appointments

/-- Witness for C5: with both list caches of P1 and D1 filled, P1's read is served
from the cache; after appointment 0 is cancelled the same read is computed from
the store and shows the cancelled status. -/
theorem mutation_invalidates_lists_witness :
    (getAppointmentsByPatient demoServices demoCached 1000 ⟨"P1", "patient"⟩ "P1").1 =
        ⟨200, .payload (.patientList [])⟩
    ∧ (cancelAppointment demoCached 0).1.status = 200
    ∧ ReadsFromStore demoServices (cancelAppointment demoCached 0).2 "P1" "D1"
    ∧ (getAppointmentsByPatient demoServices (cancelAppointment demoCached 0).2 1000
        ⟨"P1", "patient"⟩ "P1").1 =
        ⟨200, .payload (.patientList
          [{ appointmentId := 0, doctorId := "D1", doctorName := some "Dana",
             doctorSpecialty := some "cardiology", patientId := "P1",
             patientName := some "Pat", date := "2025-01-10", time := "09:00",
             status := "cancelled", callLink := some "P1/09:00",
             type := "Video Consultation" }])⟩ :=
  ⟨by decide, by decide,
   (mutation_invalidates_lists demoServices demoCached).2.2.1 0
      ⟨0, "P1", "D1", "2025-01-10", "09:00", "confirmed"⟩ (by decide) (by decide),
   by decide⟩

end Appointments

namespace Appointments

/-! ## Failures after the appointment is saved -/

/-- Counterexample to C6 as stated: when the notification service rejects the
scheduling call, or the token helper throws, the appointment has been saved and
stays saved, but the request is answered 500, not 201. -/
theorem late_failure_answers_500 :
    ((bookAppointment notifierDown demoState ⟨"P1", "patient"⟩
        (demoRequest "P1" "2025-01-10" "09:00")).2.appointments =
        [⟨0, "P1", "D1", "2025-01-10", "09:00", "confirmed"⟩]
      ∧ (bookAppointment notifierDown demoState ⟨"P1", "patient"⟩
        (demoRequest "P1" "2025-01-10" "09:00")).1 =
        ⟨500, .message "Internal Server Error"⟩)
    ∧ ((bookAppointment tokenThrows demoState ⟨"P1", "patient"⟩
        (demoRequest "P1" "2025-01-10" "09:00")).2.appointments =
        [⟨0, "P1", "D1", "2025-01-10", "09:00", "confirmed"⟩]
      ∧ (bookAppointment tokenThrows demoState ⟨"P1", "patient"⟩
        (demoRequest "P1" "2025-01-10" "09:00")).1 =
        ⟨500, .message "Internal Server Error"⟩) := by
  decide

/-- C6, amended. For every `bookAppointment` request that passes validation and
the conflict checks, the new confirmed appointment is in the store whatever the
later steps do (no rollback); the response is 201 when every later step goes
through, and the generic 500 when a user lookup finds nothing, a scheduling call
rejects, or the token helper throws. -/
theorem late_failure_keeps_appointment (sv : Services) (σ : State) (user : Actor)
    (body : BookBody) (hv : ValidBooking sv user body) (av : Availability)
    (h : findAvailability σ.availabilities (render body.doctorId) (render body.date) = some av)
    (hs : (getTimeSlots sv.localDate av.startTime av.endTime).contains (render body.time) = true)
    (hc : findConflict σ.appointments (render body.doctorId) (render body.date)
      (render body.time) = none) :
    (bookAppointment sv σ user body).2.appointments =
        σ.appointments ++ [newAppointment σ body]
    ∧ (newAppointment σ body).status = "confirmed"
    ∧ (lateStepsOk sv σ.users user (newAppointment σ body) = true →
        (bookAppointment sv σ user body).1.status = 201)
    ∧ (lateStepsOk sv σ.users user (newAppointment σ body) = false →
        (bookAppointment sv σ user body).1 = ⟨500, .message "Internal Server Error"⟩) := by
  refine ⟨(book_ok_state sv σ user body hv av h hs hc).1, rfl, ?_, ?_⟩
  · intro hl
    rw [book_ok sv σ user body hv av h hs hc]
    exact (bookAfterSave_response sv _ user (newAppointment σ body)).1 hl
  · intro hl
    rw [book_ok sv σ user body hv av h hs hc]
    exact (bookAfterSave_response sv _ user (newAppointment σ body)).2 hl

/-- Witness for C6 (amended): a booking while the notification service is down. -/
theorem late_failure_keeps_appointment_witness :
    ValidBooking notifierDown ⟨"P1", "patient"⟩ (demoRequest "P1" "2025-01-10" "09:00")
    ∧ lateStepsOk notifierDown demoState.users ⟨"P1", "patient"⟩
        (newAppointment demoState (demoRequest "P1" "2025-01-10" "09:00")) = false
    ∧ (bookAppointment notifierDown demoState ⟨"P1", "patient"⟩
        (demoRequest "P1" "2025-01-10" "09:00")).2.appointments =
        demoState.appointments ++
          [newAppointment demoState (demoRequest "P1" "2025-01-10" "09:00")]
    ∧ (bookAppointment notifierDown demoState ⟨"P1", "patient"⟩
        (demoRequest "P1" "2025-01-10" "09:00")).1 =
        ⟨500, .message "Internal Server Error"⟩ :=
  ⟨by decide, by decide,
   (late_failure_keeps_appointment notifierDown demoState ⟨"P1", "patient"⟩
      (demoRequest "P1" "2025-01-10" "09:00") (by decide)
      ⟨"D1", "2025-01-10", "09:00", "11:00"⟩ (by decide) (by decide) (by decide)).1,
   (late_failure_keeps_appointment notifierDown demoState ⟨"P1", "patient"⟩
      (demoRequest "P1" "2025-01-10" "09:00") (by decide)
      ⟨"D1", "2025-01-10", "09:00", "11:00"⟩ (by decide) (by decide) (by decide)).2.2.2
      (by decide)⟩

end Appointments

namespace Appointments

/-! ## Rejected bookings -/

/-- Every run of `bookAppointment` either stops before `save()` with only the two
cache keys removed, or is answered 201 or 500. -/
theorem book_rejected_or_saved (sv : Services) (σ : State) (user : Actor) (body : BookBody) :
    (bookAppointment sv σ user body).2 = invalidated σ body
    ∨ (bookAppointment sv σ user body).1.status = 201
    ∨ (bookAppointment sv σ user body).1.status = 500 := by
  by_cases hv : ValidBooking sv user body
  · cases h : findAvailability σ.availabilities (render body.doctorId) (render body.date) with
    | none =>
      left
      rw [book_noAvail sv σ user body hv h]
    | some av =>
      cases hs : (getTimeSlots sv.localDate av.startTime av.endTime).contains (render body.time) with
      | false =>
        left
        rw [book_outside sv σ user body hv av h hs]
      | true =>
        cases hc : findConflict σ.appointments (render body.doctorId) (render body.date)
            (render body.time) with
        | some c =>
          left
          rw [book_taken sv σ user body hv av h hs c hc]
        | none =>
          right
          rw [book_ok sv σ user body hv av h hs hc]
          cases hl : lateStepsOk sv σ.users user (newAppointment σ body) with
          | true =>
            exact Or.inl ((bookAfterSave_response sv _ user (newAppointment σ body)).1 hl)
          | false =>
            right
            have h500 := (bookAfterSave_response sv
              { invalidated σ body with
                appointments := σ.appointments ++ [newAppointment σ body],
                nextId := σ.nextId + 1 } user (newAppointment σ body)).2 hl
            exact congrArg Response.status h500
  · left
    exact (book_invalid sv σ user body hv).1

theorem invalidated_cache (σ : State) (body : BookBody) :
    (invalidated σ body).cache =
      σ.cache.filter (fun e =>
        e.key != "appointments_patient_" ++ render body.patientId
        && e.key != "appointments_doctor_" ++ render body.doctorId) := by
  simp only [invalidated, cacheDel, List.filter_filter]
  congr 1
  funext e
  exact Bool.and_comm _ _

end Appointments

namespace Appointments

/-- C7. Every `bookAppointment` request answered with a 4xx status (400, 403 or
409) leaves the Appointment Store unchanged, as well as every other store, and
the cache differs from its prior state only by the removal of the keys
`appointments_patient_<patientId>` and `appointments_doctor_<doctorId>`: every
entry under another key is kept as it was. -/
theorem rejected_booking_state (sv : Services) (σ : State) (user : Actor) (body : BookBody)
    (h4 : 400 ≤ (bookAppointment sv σ user body).1.status
      ∧ (bookAppointment sv σ user body).1.status < 500) :
    (bookAppointment sv σ user body).2.appointments = σ.appointments
    ∧ (bookAppointment sv σ user body).2.availabilities = σ.availabilities
    ∧ (bookAppointment sv σ user body).2.users = σ.users
    ∧ (bookAppointment sv σ user body).2.scheduled = σ.scheduled
    ∧ (bookAppointment sv σ user body).2.nextId = σ.nextId
    ∧ (bookAppointment sv σ user body).2.cache =
        σ.cache.filter (fun e =>
          e.key != "appointments_patient_" ++ render body.patientId
          && e.key != "appointments_doctor_" ++ render body.doctorId) := by
  rcases book_rejected_or_saved sv σ user body with hst | h201 | h500
  · rw [hst]
    exact ⟨rfl, rfl, rfl, rfl, rfl, invalidated_cache σ body⟩
  · omega
  · omega

/-- Witness for C7: a request for 10:45, outside the slots of 09:00-11:00, made
while three list caches are filled; only the entry of P2 stays. -/
theorem rejected_booking_state_witness :
    (bookAppointment demoServices demoCached ⟨"P1", "patient"⟩
        (demoRequest "P1" "2025-01-10" "10:45")).1.status = 409
    ∧ (bookAppointment demoServices demoCached ⟨"P1", "patient"⟩
        (demoRequest "P1" "2025-01-10" "10:45")).2.appointments = demoCached.appointments
    ∧ (bookAppointment demoServices demoCached ⟨"P1", "patient"⟩
        (demoRequest "P1" "2025-01-10" "10:45")).2.cache =
        [⟨"appointments_patient_P2", .patientList [], 30000⟩] :=
  ⟨by decide,
   (rejected_booking_state demoServices demoCached ⟨"P1", "patient"⟩
      (demoRequest "P1" "2025-01-10" "10:45") (by decide)).1,
   by
    rw [(rejected_booking_state demoServices demoCached ⟨"P1", "patient"⟩
      (demoRequest "P1" "2025-01-10" "10:45") (by decide)).2.2.2.2.2]
    decide⟩

end Appointments

namespace Appointments

/-! ## Cancelling frees the slot -/

theorem findById_updateById (id : Nat) (f : Appointment → Appointment)
    (hf : ∀ a, (f a)._id = a._id) :
    ∀ (l : List Appointment) (a : Appointment), findById l id = some a →
      findById (updateById id f l) id = some (f a) := by
  intro l
  induction l with
  | nil => intro a h; simp [findById] at h
  | cons x rest ih =>
    intro a h
    rw [findById_cons] at h
    by_cases hx : x._id = id
    · have hxa : x = a := by simpa [hx] using h
      subst hxa
      simp [updateById, hx, findById_cons, hf]
    · have h2 : findById rest id = some a := by simpa [hx] using h
      simp [updateById, hx, findById_cons, ih a h2]

theorem length_updateById (id : Nat) (f : Appointment → Appointment) :
    ∀ l : List Appointment, (updateById id f l).length = l.length := by
  intro l
  induction l with
  | nil => rfl
  | cons x rest ih =>
    by_cases hx : x._id = id <;> simp [updateById, hx, ih]

theorem findConflict_none_of_activeAt_zero (l : List Appointment) (d dt t : String)
    (h : activeAt l d dt t = 0) : findConflict l d dt t = none := by
  unfold activeAt at h
  unfold findConflict
  rw [List.length_eq_zero, List.filter_eq_nil_iff] at h
  rw [List.find?_eq_none]
  intro a ha
  simpa using h a ha

theorem cancelAppointment_found (σ : State) (id : Nat) (a : Appointment)
    (h : findById σ.appointments id = some a) :
    (cancelAppointment σ id).1 = ⟨200, .message "Appointment cancelled"⟩
    ∧ (cancelAppointment σ id).2.availabilities = σ.availabilities
    ∧ (cancelAppointment σ id).2.users = σ.users
    ∧ (cancelAppointment σ id).2.nextId = σ.nextId := by
  unfold cancelAppointment
  rw [h]
  exact ⟨rfl, rfl, rfl, rfl⟩

/-- C8. For an existing confirmed appointment A whose slot lies in the doctor's
availability window and is held by no other non-cancelled appointment:
`cancelAppointment(A.id)` answers 200, sets A's status to cancelled and keeps A in
the store, and a following valid `bookAppointment` for the same
(doctorId, date, time) persists a new confirmed appointment, answered 201 when the
steps after the save go through. -/
theorem cancel_then_rebook (sv : Services) (σ : State) (A : Appointment) (user : Actor)
    (body : BookBody)
    (hA : findById σ.appointments A._id = some A)
    (hconf : A.status = "confirmed")
    (av : Availability)
    (hav : findAvailability σ.availabilities A.doctorId A.date = some av)
    (hslot : (getTimeSlots sv.localDate av.startTime av.endTime).contains A.time = true)
    (hother : activeAt σ.appointments A.doctorId A.date A.time = 1)
    (hv : ValidBooking sv user body)
    (hd : render body.doctorId = A.doctorId) (hdt : render body.date = A.date)
    (ht : render body.time = A.time) :
    (cancelAppointment σ A._id).1 = ⟨200, .message "Appointment cancelled"⟩
    ∧ findById (cancelAppointment σ A._id).2.appointments A._id =
        some { A with status := "cancelled" }
    ∧ (cancelAppointment σ A._id).2.appointments.length = σ.appointments.length
    ∧ (bookAppointment sv (cancelAppointment σ A._id).2 user body).2.appointments =
        (cancelAppointment σ A._id).2.appointments ++
          [newAppointment (cancelAppointment σ A._id).2 body]
    ∧ (newAppointment (cancelAppointment σ A._id).2 body).status = "confirmed"
    ∧ (lateStepsOk sv σ.users user (newAppointment (cancelAppointment σ A._id).2 body)
          = true →
        (bookAppointment sv (cancelAppointment σ A._id).2 user body).1.status = 201) := by
  obtain ⟨hresp, havail, husers, _⟩ := cancelAppointment_found σ A._id A hA
  have happ := cancelAppointment_appointments σ A._id
  have hfree : activeAt (cancelAppointment σ A._id).2.appointments A.doctorId A.date A.time
      = 0 := by
    have key := activeAt_updateById A._id (fun a => { a with status := "cancelled" })
      A.doctorId A.date A.time σ.appointments A hA
    have hocc : occupies A.doctorId A.date A.time A = true := by
      simp [occupies, hconf]
    have hnot : occupies A.doctorId A.date A.time { A with status := "cancelled" } = false := by
      simp [occupies]
    have hnot2 : occupies A.doctorId A.date A.time
        ((fun a : Appointment => { a with status := "cancelled" }) A) = false := hnot
    rw [hocc, hnot2, hother] at key
    rw [happ]
    simpa using key
  have hav2 : findAvailability (cancelAppointment σ A._id).2.availabilities
      (render body.doctorId) (render body.date) = some av := by
    rw [havail, hd, hdt]
    exact hav
  have hs2 : (getTimeSlots sv.localDate av.startTime av.endTime).contains (render body.time) = true := by
    rw [ht]
    exact hslot
  have hc2 : findConflict (cancelAppointment σ A._id).2.appointments
      (render body.doctorId) (render body.date) (render body.time) = none := by
    rw [hd, hdt, ht]
    exact findConflict_none_of_activeAt_zero _ _ _ _ hfree
  refine ⟨hresp, ?_, ?_, ?_, rfl, ?_⟩
  · rw [happ]
    exact findById_updateById A._id (fun a => { a with status := "cancelled" })
      (fun _ => rfl) σ.appointments A hA
  · rw [happ]
    exact length_updateById _ _ _
  · exact (book_ok_state sv _ user body hv av hav2 hs2 hc2).1
  · intro hl
    rw [book_ok sv _ user body hv av hav2 hs2 hc2]
    refine (bookAfterSave_response sv _ user
      (newAppointment (cancelAppointment σ A._id).2 body)).1 ?_
    have hu : (cancelAppointment σ A._id).2.users = σ.users := husers
    simpa [invalidated, hu] using hl

/-- Witness for C8: P1's confirmed 09:00 appointment is cancelled and P2 books 09:00. -/
theorem cancel_then_rebook_witness :
    findById demoTwoBooked.appointments 0 =
        some ⟨0, "P1", "D1", "2025-01-10", "09:00", "confirmed"⟩
    ∧ (cancelAppointment demoTwoBooked 0).2.appointments =
        [⟨0, "P1", "D1", "2025-01-10", "09:00", "cancelled"⟩,
         ⟨1, "P2", "D1", "2025-01-10", "09:30", "confirmed"⟩]
    ∧ (bookAppointment demoServices (cancelAppointment demoTwoBooked 0).2 ⟨"P2", "patient"⟩
        (demoRequest "P2" "2025-01-10" "09:00")).2.appointments =
        (cancelAppointment demoTwoBooked 0).2.appointments ++
          [newAppointment (cancelAppointment demoTwoBooked 0).2
            (demoRequest "P2" "2025-01-10" "09:00")]
    ∧ (bookAppointment demoServices (cancelAppointment demoTwoBooked 0).2 ⟨"P2", "patient"⟩
        (demoRequest "P2" "2025-01-10" "09:00")).1.status = 201 :=
  ⟨by decide, by decide,
   (cancel_then_rebook demoServices demoTwoBooked
      ⟨0, "P1", "D1", "2025-01-10", "09:00", "confirmed"⟩ ⟨"P2", "patient"⟩
      (demoRequest "P2" "2025-01-10" "09:00") (by decide) rfl
      ⟨"D1", "2025-01-10", "09:00", "11:00"⟩ (by decide) (by decide) (by decide)
      (by decide) rfl rfl rfl).2.2.2.1,
   (cancel_then_rebook demoServices demoTwoBooked
      ⟨0, "P1", "D1", "2025-01-10", "09:00", "confirmed"⟩ ⟨"P2", "patient"⟩
      (demoRequest "P2" "2025-01-10" "09:00") (by decide) rfl
      ⟨"D1", "2025-01-10", "09:00", "11:00"⟩ (by decide) (by decide) (by decide)
      (by decide) rfl rfl rfl).2.2.2.2.2 (by decide)⟩

end Appointments

namespace Appointments

/-! ## Authorization of the list reads -/

/-- C9. For an actor with role patient, `getAppointmentsByPatient` answers 403
(and touches nothing) when `actor.id` differs from `patientId`, and never answers
403 when `actor.id` equals `patientId`, whatever the cache and the store contain. -/
theorem patient_list_authorization (sv : Services) (σ : State) (now : Nat) (user : Actor)
    (patientId : String) (hrole : user.role = "patient") :
    (user.id ≠ patientId →
      getAppointmentsByPatient sv σ now user patientId =
        (⟨403, .message "Forbidden: access denied"⟩, σ))
    ∧ (user.id = patientId →
      (getAppointmentsByPatient sv σ now user patientId).1.status ≠ 403) := by
  constructor
  · intro hne
    simp [getAppointmentsByPatient, hrole, hne]
  · intro heq
    unfold getAppointmentsByPatient
    rw [if_neg (by simp [heq])]
    dsimp only
    split
    · simp
    · split_ifs
      · simp
      · split <;> simp

/-- Witness for C9: P2 asks for P1's list and is refused although it is cached; P1
asks for the own list and is served. -/
theorem patient_list_authorization_witness :
    (getAppointmentsByPatient demoServices demoCached 1000 ⟨"P2", "patient"⟩ "P1").1.status
        = 403
    ∧ (getAppointmentsByPatient demoServices demoCached 1000 ⟨"P1", "patient"⟩ "P1").1.status
        ≠ 403 :=
  ⟨congrArg (fun r => r.1.status)
      ((patient_list_authorization demoServices demoCached 1000 ⟨"P2", "patient"⟩ "P1" rfl).1
        (by decide)),
   (patient_list_authorization demoServices demoCached 1000 ⟨"P1", "patient"⟩ "P1" rfl).2 rfl⟩

/-- Counterexample to C10 as stated: the patient P1, whose id is not D1, asks for
the list of doctor D1 and is answered 200 with every appointment of D1, the one
of patient P2 with name and email included; a cached list is served the same way. -/
theorem patient_reads_doctor_list :
    (getAppointmentsByDoctor demoTwoBooked 1000 ⟨"P1", "patient"⟩ "D1").1 =
        ⟨200, .payload (.doctorList
          [{ _id := 0, patientId := some ⟨"P1", "Pat", "pat@example.org"⟩, doctorId := "D1",
             date := "2025-01-10", time := "09:00", status := "confirmed" },
           { _id := 1, patientId := some ⟨"P2", "Quinn", "quinn@example.org"⟩,
             doctorId := "D1", date := "2025-01-10", time := "09:30",
             status := "confirmed" }])⟩
    ∧ (getAppointmentsByDoctor demoCached 1000 ⟨"P1", "patient"⟩ "D1").1 =
        ⟨200, .payload (.doctorList [])⟩ := by
  decide

/-- C10, amended. `getAppointmentsByDoctor` refuses only other doctors: an actor
whose role is doctor and whose id differs from `doctorId` is answered 403, no
appointment data is returned and nothing is read or changed. An actor whose role
is patient is not refused, whatever its id: it gets exactly the answer, and
leaves exactly the state, of the doctor's own request at that moment, which is
200 with the cached or stored list, or 404 when nothing is cached and the doctor
has no appointments. -/
theorem doctor_list_authorization (σ : State) (now : Nat) (user : Actor)
    (doctorId : String) :
    (user.role = "doctor" → user.id ≠ doctorId →
      getAppointmentsByDoctor σ now user doctorId =
        (⟨403, .message "Forbidden: access denied"⟩, σ))
    ∧ (user.role = "patient" →
      getAppointmentsByDoctor σ now user doctorId =
          getAppointmentsByDoctor σ now ⟨doctorId, "doctor"⟩ doctorId
      ∧ (∀ cached, (cacheGet σ.cache ("appointments_doctor_" ++ doctorId) now).1
            = some cached →
          (getAppointmentsByDoctor σ now user doctorId).1 = ⟨200, .payload cached⟩)
      ∧ ((cacheGet σ.cache ("appointments_doctor_" ++ doctorId) now).1 = none →
          (∃ a ∈ σ.appointments, a.doctorId = doctorId) →
          (getAppointmentsByDoctor σ now user doctorId).1 =
            ⟨200, .payload (.doctorList
              (((σ.appointments.filter (fun a => a.doctorId == doctorId)).map
                (populatePatient σ.users)).insertionSort
                  (fun a b => dateTimeLe a b = true)))⟩)
      ∧ ((cacheGet σ.cache ("appointments_doctor_" ++ doctorId) now).1 = none →
          (∀ a ∈ σ.appointments, a.doctorId ≠ doctorId) →
          (getAppointmentsByDoctor σ now user doctorId).1 =
            ⟨404, .message "No appointments found"⟩)) := by
  constructor
  · intro hrole hne
    simp [getAppointmentsByDoctor, hrole, hne]
  · intro hrole
    have hno : ¬ (user.role = "doctor" ∧ user.id ≠ doctorId) := by
      rw [hrole]
      rintro ⟨h1, _⟩
      exact absurd h1 (by decide)
    have hown : ¬ ((⟨doctorId, "doctor"⟩ : Actor).role = "doctor"
        ∧ (⟨doctorId, "doctor"⟩ : Actor).id ≠ doctorId) := by
      rintro ⟨_, h2⟩
      exact h2 rfl
    refine ⟨?_, ?_, ?_, ?_⟩
    · unfold getAppointmentsByDoctor
      rw [if_neg hno, if_neg hown]
    · intro cached hc
      unfold getAppointmentsByDoctor
      rw [if_neg hno]
      dsimp only
      rw [hc]
    · intro hc hex
      unfold getAppointmentsByDoctor
      rw [if_neg hno]
      dsimp only
      rw [hc]
      dsimp only
      have hlen : ¬ ((((σ.appointments.filter (fun a => a.doctorId == doctorId)).map
          (populatePatient σ.users)).insertionSort
            (fun a b => dateTimeLe a b = true)).length = 0) := by
        rw [List.length_insertionSort, List.length_map]
        obtain ⟨a, ha, had⟩ := hex
        have hmem : a ∈ σ.appointments.filter (fun a => a.doctorId == doctorId) :=
          List.mem_filter.mpr ⟨ha, by simpa using had⟩
        exact Nat.ne_of_gt (List.length_pos_of_mem hmem)
      rw [if_neg hlen]
    · intro hc hall
      unfold getAppointmentsByDoctor
      rw [if_neg hno]
      dsimp only
      rw [hc]
      dsimp only
      have hnil : σ.appointments.filter (fun a => a.doctorId == doctorId) = [] := by
        rw [List.filter_eq_nil_iff]
        intro a ha
        simpa using hall a ha
      have hlen : (((σ.appointments.filter (fun a => a.doctorId == doctorId)).map
          (populatePatient σ.users)).insertionSort
            (fun a b => dateTimeLe a b = true)).length = 0 := by
        rw [hnil]
        rfl
      rw [if_pos hlen]

/-- Witness for C10 (amended): doctor D2 is refused the list of D1; patient P1
gets the answer of D1's own request, the stored list. -/
theorem doctor_list_authorization_witness :
    (getAppointmentsByDoctor demoTwoBooked 1000 ⟨"D2", "doctor"⟩ "D1").1.status = 403
    ∧ getAppointmentsByDoctor demoTwoBooked 1000 ⟨"P1", "patient"⟩ "D1" =
        getAppointmentsByDoctor demoTwoBooked 1000 ⟨"D1", "doctor"⟩ "D1"
    ∧ (getAppointmentsByDoctor demoTwoBooked 1000 ⟨"P1", "patient"⟩ "D1").1.status = 200
    ∧ (getAppointmentsByDoctor demoState 1000 ⟨"P1", "patient"⟩ "D1").1 =
        ⟨404, .message "No appointments found"⟩ :=
  ⟨congrArg (fun r => r.1.status)
      ((doctor_list_authorization demoTwoBooked 1000 ⟨"D2", "doctor"⟩ "D1").1 rfl
        (by decide)),
   ((doctor_list_authorization demoTwoBooked 1000 ⟨"P1", "patient"⟩ "D1").2 rfl).1,
   by decide,
   ((doctor_list_authorization demoState 1000 ⟨"P1", "patient"⟩ "D1").2 rfl).2.2.2
      (by decide) (by decide)⟩

end Appointments

namespace Appointments

/-! ## What a cache hit serves -/

theorem cacheGet_cacheSet (c : List CacheEntry) (k : String) (v : Payload) (now now2 : Nat)
    (h : now2 ≤ now + 30 * 1000) :
    cacheGet (cacheSet c k v now) k now2 = (some v, cacheSet c k v now) := by
  have hne : ¬ (now + 30 * 1000 ≠ 0 ∧ now + 30 * 1000 < now2) := by omega
  simp only [cacheGet, cacheSet, List.find?_cons, beq_self_eq_true]
  rw [if_neg hne]

/-- A list read that fills the cache fixes what the next reads get: within the
30 seconds of the entry, every actor that passes the access check is answered
with the payload computed for the actor of the filling request. -/
theorem getAppointmentsByPatient_hit_after_fill (sv : Services) (σ : State) (now now2 : Nat)
    (u1 u2 : Actor) (patientId : String) (p : Payload)
    (habs : cacheAbsent σ.cache ("appointments_patient_" ++ patientId))
    (h1 : (getAppointmentsByPatient sv σ now u1 patientId).1 = ⟨200, .payload p⟩)
    (hauth : ¬ (u2.role = "patient" ∧ u2.id ≠ patientId))
    (hn : now2 ≤ now + 30 * 1000) :
    (getAppointmentsByPatient sv (getAppointmentsByPatient sv σ now u1 patientId).2 now2 u2
      patientId).1 = ⟨200, .payload p⟩ := by
  have hfill : (getAppointmentsByPatient sv σ now u1 patientId).2.cache =
      cacheSet σ.cache ("appointments_patient_" ++ patientId) p now := by
    revert h1
    unfold getAppointmentsByPatient
    dsimp only
    rw [cacheGet_of_absent _ _ now habs]
    dsimp only
    split_ifs
    · intro h1
      simp at h1
    · intro h1
      simp at h1
    · split
      · intro h1
        simp at h1
      · intro h1
        simp only [Response.mk.injEq, Body.payload.injEq, true_and] at h1
        rw [← h1]
  generalize (getAppointmentsByPatient sv σ now u1 patientId).2 = σ1 at hfill ⊢
  unfold getAppointmentsByPatient
  rw [if_neg hauth]
  dsimp only
  rw [hfill, cacheGet_cacheSet _ _ _ _ _ hn]

/-- C11, the code at the failing input. Doctor D1 reads the list of patient P1
and fills the cache; one second later patient P1 reads the own list and is served,
from the cache, the call link issued for D1, while the same request computed from
the store carries the call link issued for P1. -/
theorem cached_call_link_of_other_actor :
    (getAppointmentsByPatient demoServices
        (getAppointmentsByPatient demoServices demoTwoBooked 1000 ⟨"D1", "doctor"⟩ "P1").2
        2000 ⟨"P1", "patient"⟩ "P1").1 =
        ⟨200, .payload (.patientList
          [{ appointmentId := 0, doctorId := "D1", doctorName := some "Dana",
             doctorSpecialty := some "cardiology", patientId := "P1",
             patientName := some "Pat", date := "2025-01-10", time := "09:00",
             status := "confirmed", callLink := some "D1/09:00",
             type := "Video Consultation" }])⟩
    ∧ (getAppointmentsByPatient demoServices
        { (getAppointmentsByPatient demoServices demoTwoBooked 1000 ⟨"D1", "doctor"⟩
            "P1").2 with cache := [] }
        2000 ⟨"P1", "patient"⟩ "P1").1 =
        ⟨200, .payload (.patientList
          [{ appointmentId := 0, doctorId := "D1", doctorName := some "Dana",
             doctorSpecialty := some "cardiology", patientId := "P1",
             patientName := some "Pat", date := "2025-01-10", time := "09:00",
             status := "confirmed", callLink := some "P1/09:00",
             type := "Video Consultation" }])⟩ := by
  decide

end Appointments

namespace Records

open Appointments

/-! ## What the records cache serves -/

/-- A single-record key is never a list key. -/
theorem record_key_ne_list_key (recordId patientId : String) :
    "record_" ++ recordId ≠ "records_patient_" ++ patientId := by
  intro h
  have hd := congrArg String.data h
  simp only [String.data_append] at hd
  have h6 := congrArg (fun l => l.get? 6) hd
  simp at h6

theorem cacheGet_after_update (c : List RecordCacheEntry) (recordId patientId : String)
    (v : RecordPayload) (now now2 : Nat) (h : now2 ≤ now + 30 * 1000) :
    (cacheGet (cacheDel (cacheSet c ("record_" ++ recordId) v now)
      ("records_patient_" ++ patientId)) ("record_" ++ recordId) now2).1 = some v := by
  have hne : ¬ (now + 30 * 1000 ≠ 0 ∧ now + 30 * 1000 < now2) := by omega
  have hk : ("record_" ++ recordId != "records_patient_" ++ patientId) = true := by
    simpa using record_key_ne_list_key recordId patientId
  simp only [cacheGet, cacheSet, cacheDel, List.filter_cons, hk, if_true, List.find?_cons,
    beq_self_eq_true]
  rw [if_neg hne]

/-- The write-through of `updateRecord` does not look at `isDeleted`: when the
updated document is soft-deleted, `updateRecord` still answers 200 and caches it,
and `getRecord` serves it for the next 30 seconds. -/
theorem updateRecord_caches_deleted (σ : RecordState) (user : Actor) (now now2 : Nat)
    (recordId : String) (updates : RecordUpdate) (r : Record)
    (hf : findRecordById σ.records recordId = some r)
    (hn : now2 ≤ now + 30 * 1000) :
    (updateRecord σ user now recordId updates).1 =
        ⟨200, .payload (.one (applyUpdates updates user.id r))⟩
    ∧ (getRecord (updateRecord σ user now recordId updates).2 now2 recordId).1 =
        ⟨200, .payload (.one (applyUpdates updates user.id r))⟩ := by
  have hst : updateRecord σ user now recordId updates =
      (⟨200, .payload (.one (applyUpdates updates user.id r))⟩,
        { σ with
          records := updateRecordById recordId (applyUpdates updates user.id) σ.records,
          cache := cacheDel (cacheSet σ.cache ("record_" ++ recordId)
              (.one (applyUpdates updates user.id r)) now)
            ("records_patient_" ++ (applyUpdates updates user.id r).patientId) }) := by
    unfold updateRecord
    rw [hf]
  rw [hst]
  refine ⟨rfl, ?_⟩
  unfold getRecord
  dsimp only
  rw [cacheGet_after_update _ _ _ _ _ _ hn]

/-- C12, the code at the failing inputs. (1) R1 is soft-deleted and then renamed:
`updateRecord` answers 200 and the next `getRecord(R1)` serves the soft-deleted
record from the cache, where a read from the store answers 404. (2) The list of
P1 is cached and R1 is then moved to patient P2: the next `getRecords(P1)` still
serves R1 from the cache, where a read from the store gives the empty list. -/
theorem stale_record_cache :
    ((updateRecord (deleteRecord demoRecords ⟨"D1", "doctor"⟩ 1000 "R1").2
        ⟨"D1", "doctor"⟩ 2000 "R1" (renameTo "Blood test (rev.)")).1.status = 200
      ∧ (getRecord
          (updateRecord (deleteRecord demoRecords ⟨"D1", "doctor"⟩ 1000 "R1").2
            ⟨"D1", "doctor"⟩ 2000 "R1" (renameTo "Blood test (rev.)")).2 3000 "R1").1 =
          ⟨200, .payload (.one
            { _id := "R1", patientId := "P1", title := some "Blood test (rev.)",
              type := some "lab", notes := none, fileUrl := none,
              uploadedBy := some "D1", lastUpdatedBy := some "D1", isDeleted := true,
              deletedBy := some "D1", deletedAt := some 1000 })⟩
      ∧ (getRecord
          { (updateRecord (deleteRecord demoRecords ⟨"D1", "doctor"⟩ 1000 "R1").2
              ⟨"D1", "doctor"⟩ 2000 "R1" (renameTo "Blood test (rev.)")).2 with
            cache := [] } 3000 "R1").1 =
          ⟨404, .error "Record not found"⟩)
    ∧ ((updateRecord (getRecords demoRecords 1000 "P1").2 ⟨"D1", "doctor"⟩ 2000 "R1"
          (moveTo "P2")).1.status = 200
      ∧ (getRecords
          (updateRecord (getRecords demoRecords 1000 "P1").2 ⟨"D1", "doctor"⟩ 2000 "R1"
            (moveTo "P2")).2 3000 "P1").1 =
          ⟨200, .payload (.list
            [{ record :=
                { _id := "R1", patientId := "P1", title := some "Blood test",
                  type := some "lab", notes := none, fileUrl := none,
                  uploadedBy := some "D1", lastUpdatedBy := none, isDeleted := false,
                  deletedBy := none, deletedAt := none },
               uploadedBy := some ⟨"D1", "Dana"⟩, lastUpdatedBy := none }])⟩
      ∧ (getRecords
          { (updateRecord (getRecords demoRecords 1000 "P1").2 ⟨"D1", "doctor"⟩ 2000 "R1"
              (moveTo "P2")).2 with cache := [] } 3000 "P1").1 =
          ⟨200, .payload (.list [])⟩) := by
  decide

end Records
